import Mathlib

/-!
# Temp_and_Humidity_SHT31/main.c

A shallow embedding of the telemetry agent in `src/Temp_and_Humidity_SHT31/main.c`.

* The file-scope variables of main.c (`scopeId`, `hubHostName`, `deviceId`, `connectionType`,
  `iotHubClientAuthenticationState`, `iothubClientHandle`, `exitCode`, and the function-local
  `static` of `GetReasonString`) form the record `AppState`; every C function becomes a
  function that takes the state and returns the new state.
* Every call that leaves main.c (logging, SDK, sensors, display, relay, libc sleep) is recorded,
  in program order, as an `Event`; a function returns the list of events it performed.
* What an external call answers is an input of the model: the answer of the connectivity query,
  of the provisioning call, of the sensors and of the clock, and the callbacks the SDK dispatches
  from inside `IoTHubDeviceClient_LL_DoWork`.
* Constants that live in SDK headers (`EAGAIN`, the `ConnectedToInternet` bit, the numeric values
  of the SDK enums) are not in the repository; the model takes the outcome of each comparison
  against such a constant from the environment instead of fixing a number.
* C strings are `String`s (the characters before the terminating NUL); a possibly-NULL
  `char *` is an `Option String`.
* An `int` is an `Int`; the `int` additions of the format arguments are reduced to the 32-bit
  two's complement range (`wrapInt32`).
-/

namespace TempHumiditySHT31

/-! ## Data model (main.c:37-127) -/

/-- The type of `exitCode` (`sig_atomic_t` holding an `ExitCode` enumerator). -/
abbrev ExitCode := Int

abbrev ExitCode_Success : ExitCode := 0
abbrev ExitCode_TermHandler_SigTerm : ExitCode := 1
abbrev ExitCode_Main_EventLoopFail : ExitCode := 2
abbrev ExitCode_ButtonTimer_Consume : ExitCode := 3
abbrev ExitCode_AzureTimer_Consume : ExitCode := 4
abbrev ExitCode_Init_EventLoop : ExitCode := 5
abbrev ExitCode_Init_MessageButton : ExitCode := 6
abbrev ExitCode_Init_OrientationButton : ExitCode := 7
abbrev ExitCode_Init_TwinStatusLed : ExitCode := 8
abbrev ExitCode_Init_ButtonPollTimer : ExitCode := 9
abbrev ExitCode_Init_AzureTimer : ExitCode := 10
abbrev ExitCode_IsButtonPressed_GetValue : ExitCode := 11
abbrev ExitCode_Validate_ConnectionType : ExitCode := 12
abbrev ExitCode_Validate_ScopeId : ExitCode := 13
abbrev ExitCode_Validate_IotHubHostname : ExitCode := 14
abbrev ExitCode_Validate_DeviceId : ExitCode := 15
abbrev ExitCode_InterfaceConnectionStatus_Failed : ExitCode := 16

/-- Connection types to use when connecting to the Azure IoT Hub (main.c:69-74). -/
inductive ConnectionType
  | ConnectionType_NotDefined
  | ConnectionType_DPS
  | ConnectionType_Direct
  deriving DecidableEq, Repr

/-- Authentication state of the client with respect to the Azure IoT Hub (main.c:79-87). -/
inductive IoTHubClientAuthenticationState
  | IoTHubClientAuthenticationState_NotAuthenticated
  | IoTHubClientAuthenticationState_AuthenticationInitiated
  | IoTHubClientAuthenticationState_Authenticated
  deriving DecidableEq, Repr

open ConnectionType IoTHubClientAuthenticationState

/-- What the pointer variable `iothubClientHandle` refers to: `null` is `NULL`, `live` a client
created by the provisioning call and not destroyed since, `destroyed` a non-NULL pointer to a
client that `IoTHubDeviceClient_LL_Destroy` has already released. -/
inductive ClientHandle
  | null
  | live
  | destroyed
  deriving DecidableEq, Repr

/-- Values of the SDK enum `IOTHUB_CLIENT_CONNECTION_STATUS`; `other` stands for any value of
the underlying integer type that is not `IOTHUB_CLIENT_CONNECTION_AUTHENTICATED`. -/
inductive IOTHUB_CLIENT_CONNECTION_STATUS
  | IOTHUB_CLIENT_CONNECTION_AUTHENTICATED
  | IOTHUB_CLIENT_CONNECTION_UNAUTHENTICATED
  | other (tag : Nat)
  deriving DecidableEq, Repr

/-- Values of the SDK enum `IOTHUB_CLIENT_CONNECTION_STATUS_REASON`, as listed by the
`switch` of `GetReasonString` (main.c:531-557); `other` is a value that matches no `case`. -/
inductive IOTHUB_CLIENT_CONNECTION_STATUS_REASON
  | IOTHUB_CLIENT_CONNECTION_EXPIRED_SAS_TOKEN
  | IOTHUB_CLIENT_CONNECTION_DEVICE_DISABLED
  | IOTHUB_CLIENT_CONNECTION_BAD_CREDENTIAL
  | IOTHUB_CLIENT_CONNECTION_RETRY_EXPIRED
  | IOTHUB_CLIENT_CONNECTION_NO_NETWORK
  | IOTHUB_CLIENT_CONNECTION_COMMUNICATION_ERROR
  | IOTHUB_CLIENT_CONNECTION_OK
  | IOTHUB_CLIENT_CONNECTION_NO_PING_RESPONSE
  | other (tag : Nat)
  deriving DecidableEq, Repr

/-- Values of `AZURE_SPHERE_PROV_RETURN_VALUE.result`, as listed by the `switch` of
`GetAzureSphereProvisioningResultString` (main.c:466-482); `unknown` is a value that falls
into its `default` branch. -/
inductive AZURE_SPHERE_PROV_RESULT
  | AZURE_SPHERE_PROV_RESULT_OK
  | AZURE_SPHERE_PROV_RESULT_INVALID_PARAM
  | AZURE_SPHERE_PROV_RESULT_NETWORK_NOT_READY
  | AZURE_SPHERE_PROV_RESULT_DEVICEAUTH_NOT_READY
  | AZURE_SPHERE_PROV_RESULT_PROV_DEVICE_ERROR
  | AZURE_SPHERE_PROV_RESULT_GENERIC_ERROR
  | unknown (tag : Nat)
  deriving DecidableEq, Repr

open IOTHUB_CLIENT_CONNECTION_STATUS IOTHUB_CLIENT_CONNECTION_STATUS_REASON
open AZURE_SPHERE_PROV_RESULT

/-- Outcome of one call of `Networking_GetInterfaceConnectionStatus(NetworkInterface, &status)`:
`ok c` is a return value of 0 with `c` the truth of
`status & Networking_InterfaceConnectionStatus_ConnectedToInternet`; `failed e` is a non-zero
return value with `e` the truth of `errno == EAGAIN`. -/
inductive NetworkingResult
  | ok (connectedToInternet : Bool)
  | failed (errnoIsEAGAIN : Bool)
  deriving DecidableEq, Repr

/-- A `float` value. `finite neg mant exp` is `(-1)^neg * mant * 2^exp`; the other two
constructors are the infinities and the NaNs, with their sign bit. -/
inductive CFloat
  | finite (neg : Bool) (mant : Nat) (exp : Int)
  | inf (neg : Bool)
  | nan (neg : Bool)
  deriving DecidableEq, Repr

/-- The fields of `struct tm` read by the main loop; each is an `int`, a value in
`-2147483648 .. 2147483647`. -/
structure Tm where
  tm_year : Int
  tm_mon : Int
  tm_mday : Int
  tm_hour : Int
  tm_min : Int
  tm_sec : Int
  deriving DecidableEq, Repr

/-- A call that leaves main.c, with the arguments that matter. `Log_Debug` carries the format
string and the rendered arguments. -/
inductive Event
  | Log_Debug (fmt : String) (args : List String)
  | sigaction
  | GroveShield_Initialize
  | GroveTempHumiSHT31_Open
  | GroveLightSensor_Init
  | GroveOledDisplay_Init
  | GroveRelay_Open (pin : Nat)
  | setNormalDisplay
  | setVerticalMode
  | Networking_GetInterfaceConnectionStatus
  | GroveTempHumiSHT31_Read
  | GroveTempHumiSHT31_GetTemperature
  | GroveTempHumiSHT31_GetHumidity
  | GroveLightSensor_Read
  | GroveAD7992_ConvertToMillisVolt
  | clearDisplay
  | setGrayLevel (level : Nat)
  | setTextXY (row column : Nat)
  | putString (s : String)
  | putNumber (n : Option Nat)
  | time
  | localtime
  | snprintf (size : Nat) (len : Int)
  | usleep (usec : Nat)
  | GroveRelay_On
  | GroveRelay_Off
  | malloc (size : Nat)
  | IoTHubDeviceClient_LL_Destroy
  | IoTHubDeviceClient_LL_CreateWithAzureSphereDeviceAuthProvisioning (scopeId : Option String)
      (timeout : Nat)
  | IoTHubDeviceClient_LL_SetConnectionStatusCallback
  | IoTHubDeviceClient_LL_SetDeviceMethodCallback
  | IoTHubMessage_CreateFromString (source : String)
  | IoTHubDeviceClient_LL_SendEventAsync (message : String)
  | IoTHubMessage_Destroy
  | IoTHubDeviceClient_LL_DoWork
  deriving DecidableEq, Repr

/-- The mutable file-scope variables of main.c (lines 90-98, 127) and the `static` local
`reasonString` of `GetReasonString` (line 530). -/
structure AppState where
  scopeId : Option String
  hubHostName : Option String
  deviceId : Option String
  connectionType : ConnectionType
  iotHubClientAuthenticationState : IoTHubClientAuthenticationState
  iothubClientHandle : ClientHandle
  exitCode : ExitCode
  reasonString : String
  deriving DecidableEq, Repr

/-- The initial values given by the initialisers of main.c. -/
def AppState.initial : AppState where
  scopeId := none
  hubHostName := none
  deviceId := none
  connectionType := ConnectionType_NotDefined
  iotHubClientAuthenticationState := IoTHubClientAuthenticationState_NotAuthenticated
  iothubClientHandle := ClientHandle.null
  exitCode := ExitCode_Success
  reasonString := "unknown reason"

/-! ## libc helpers -/

/-- The libc `strcmp` on the characters before the NUL: zero when the strings are equal,
otherwise the sign of the difference of the first differing characters (a string that ends
first is smaller). -/
def strcmp : List Char → List Char → Int
  | [], [] => 0
  | [], _ :: _ => -1
  | _ :: _, [] => 1
  | a :: as, b :: bs => if a = b then strcmp as bs else if a.toNat < b.toNat then -1 else 1

/-- The libc `strlen`: number of characters before the NUL. -/
def strlen (s : String) : Nat := s.length

/-- The libc `memcpy(dst, src, n)` into a fresh buffer: the first `n` bytes of `src`. -/
def memcpy (src : String) (n : Nat) : List Char := src.toList.take n

/-! ## The callbacks (main.c:313-361, 488-491, 528-559) -/

/-- Converts the connection status reason to a string (main.c:528-559). The result variable is
`static`: a reason that matches no `case` returns the string left by the previous call. -/
def GetReasonString (s : AppState) (reason : IOTHUB_CLIENT_CONNECTION_STATUS_REASON) :
    AppState × String :=
  let reasonString :=
    match reason with
    | IOTHUB_CLIENT_CONNECTION_EXPIRED_SAS_TOKEN => "IOTHUB_CLIENT_CONNECTION_EXPIRED_SAS_TOKEN"
    | IOTHUB_CLIENT_CONNECTION_DEVICE_DISABLED => "IOTHUB_CLIENT_CONNECTION_DEVICE_DISABLED"
    | IOTHUB_CLIENT_CONNECTION_BAD_CREDENTIAL => "IOTHUB_CLIENT_CONNECTION_BAD_CREDENTIAL"
    | IOTHUB_CLIENT_CONNECTION_RETRY_EXPIRED => "IOTHUB_CLIENT_CONNECTION_RETRY_EXPIRED"
    | IOTHUB_CLIENT_CONNECTION_NO_NETWORK => "IOTHUB_CLIENT_CONNECTION_NO_NETWORK"
    | IOTHUB_CLIENT_CONNECTION_COMMUNICATION_ERROR =>
        "IOTHUB_CLIENT_CONNECTION_COMMUNICATION_ERROR"
    | IOTHUB_CLIENT_CONNECTION_OK => "IOTHUB_CLIENT_CONNECTION_OK"
    | IOTHUB_CLIENT_CONNECTION_NO_PING_RESPONSE => "IOTHUB_CLIENT_CONNECTION_NO_PING_RESPONSE"
    | IOTHUB_CLIENT_CONNECTION_STATUS_REASON.other _ => s.reasonString
  ({ s with reasonString := reasonString }, reasonString)

/-- Callback when the Azure IoT connection state changes (main.c:313-326). -/
def ConnectionStatusCallback (s : AppState) (result : IOTHUB_CLIENT_CONNECTION_STATUS)
    (reason : IOTHUB_CLIENT_CONNECTION_STATUS_REASON) : AppState × List Event :=
  let (s1, reasonString) := GetReasonString s reason
  let log := [Event.Log_Debug "Azure IoT connection status: %s\n" [reasonString]]
  if result ≠ IOTHUB_CLIENT_CONNECTION_AUTHENTICATED then
    ({ s1 with iotHubClientAuthenticationState :=
        IoTHubClientAuthenticationState_NotAuthenticated }, log)
  else
    ({ s1 with iotHubClientAuthenticationState :=
        IoTHubClientAuthenticationState_Authenticated }, log)

/-- What `DeviceMethodCallback` hands back: its return value and the two out-parameters. -/
structure MethodResponse where
  result : Int
  response : List Char
  responseSize : Nat
  deriving DecidableEq, Repr

/-- Callback invoked when a Direct Method is received from Azure IoT Hub (main.c:331-361).
The payload is not read. `malloc` is taken to succeed. -/
def DeviceMethodCallback (methodName : String) (_payload : List Nat) :
    MethodResponse × List Event :=
  let log := [Event.Log_Debug "Received Device Method callback: Method name %s.\n" [methodName]]
  let branch : Int × String × List Event :=
    if strcmp "TriggerAlarm".toList methodName.toList = 0 then
      (200, "\"Alarm Triggered\"",
        [Event.Log_Debug "  ----- ALARM TRIGGERED! -----\n" [],
         Event.GroveRelay_On, Event.usleep 1000000, Event.GroveRelay_Off])
    else
      (-1, "\x7b\x7d", [])
  let result := branch.1
  let responseString := branch.2.1
  let responseSize := strlen responseString
  let response := memcpy responseString responseSize
  (⟨result, response, responseSize⟩, log ++ branch.2.2 ++ [Event.malloc responseSize])

/-- Callback invoked when the send event request is processed (main.c:488-491). -/
def SendEventCallback (result : Int) : List Event :=
  [Event.Log_Debug "INFO: Azure IoT Hub send telemetry event callback: status code %d.\n"
    [toString result]]

/-- A callback that the SDK dispatches from inside `IoTHubDeviceClient_LL_DoWork`: one of the
two callbacks installed by `SetUpAzureIoTHubClientWithDps`, or the send confirmation passed to
`IoTHubDeviceClient_LL_SendEventAsync`. -/
inductive Callback
  | connectionStatus (result : IOTHUB_CLIENT_CONNECTION_STATUS)
      (reason : IOTHUB_CLIENT_CONNECTION_STATUS_REASON)
  | deviceMethod (methodName : String) (payload : List Nat)
  | sendEvent (result : Int)
  deriving DecidableEq, Repr

/-- Runs one dispatched callback. -/
def Callback.run (s : AppState) : Callback → AppState × List Event
  | Callback.connectionStatus result reason => ConnectionStatusCallback s result reason
  | Callback.deviceMethod methodName payload => (s, (DeviceMethodCallback methodName payload).2)
  | Callback.sendEvent result => (s, SendEventCallback result)

/-- The call `IoTHubDeviceClient_LL_DoWork(iothubClientHandle)`: the SDK runs the pending
callbacks in order. -/
def DoWork (s : AppState) : List Callback → AppState × List Event
  | [] => (s, [])
  | cb :: rest =>
    let r1 := cb.run s
    let r2 := DoWork r1.1 rest
    (r2.1, r1.2 ++ r2.2)

/-! ## Sending telemetry (main.c:418-458, 496-523) -/

/-- Check the network status (main.c:496-523). -/
def IsConnectionReadyToSendTelemetry (s : AppState) (status : NetworkingResult) :
    AppState × Bool × List Event :=
  match status with
  | NetworkingResult.failed errnoIsEAGAIN =>
    if ¬ errnoIsEAGAIN then
      ({ s with exitCode := ExitCode_InterfaceConnectionStatus_Failed }, false,
        [Event.Networking_GetInterfaceConnectionStatus,
         Event.Log_Debug "ERROR: Networking_GetInterfaceConnectionStatus: %d (%s)\n" []])
    else
      (s, false,
        [Event.Networking_GetInterfaceConnectionStatus,
         Event.Log_Debug ("WARNING: Cannot send Azure IoT Hub telemetry because the networking "
           ++ "stack isn't ready yet.\n") []])
  | NetworkingResult.ok connectedToInternet =>
    if connectedToInternet = false then
      (s, false,
        [Event.Networking_GetInterfaceConnectionStatus,
         Event.Log_Debug ("WARNING: Cannot send Azure IoT Hub telemetry because the device is "
           ++ "not connected to the internet.\n") []])
    else
      (s, true, [Event.Networking_GetInterfaceConnectionStatus])

/-- What the outside world answers during one call of `SendTelemetry`. -/
structure SendEnv where
  /-- Answer of the connectivity query made by `IsConnectionReadyToSendTelemetry`. -/
  status : NetworkingResult
  /-- Whether `IoTHubMessage_CreateFromString` returned a message handle equal to 0. -/
  messageHandleIsNull : Bool
  /-- Whether `IoTHubDeviceClient_LL_SendEventAsync` returned `IOTHUB_CLIENT_OK`. -/
  sendEventAsyncOk : Bool
  /-- The callbacks dispatched by `IoTHubDeviceClient_LL_DoWork`. -/
  callbacks : List Callback
  deriving DecidableEq, Repr

/-- Sends telemetry to Azure IoT Hub (main.c:418-458). -/
def SendTelemetry (s : AppState) (jsonMessage : String) (env : SendEnv) :
    AppState × List Event :=
  if s.iotHubClientAuthenticationState ≠ IoTHubClientAuthenticationState_Authenticated then
    (s, [Event.Log_Debug
      "WARNING: Azure IoT Hub is not authenticated. Not sending telemetry.\n" []])
  else
    let log1 := [Event.Log_Debug "Sending Azure IoT Hub telemetry: %s.\n" [jsonMessage]]
    let (s1, ready, ev1) := IsConnectionReadyToSendTelemetry s env.status
    if ready = false then
      (s1, log1 ++ ev1)
    else if env.messageHandleIsNull then
      (s1, log1 ++ ev1 ++
        [Event.IoTHubMessage_CreateFromString jsonMessage,
         Event.Log_Debug "ERROR: unable to create a new IoTHubMessage.\n" []])
    else
      let ev2 :=
        [Event.IoTHubMessage_CreateFromString jsonMessage,
         Event.IoTHubDeviceClient_LL_SendEventAsync jsonMessage,
         (if ¬ env.sendEventAsyncOk then
            Event.Log_Debug "ERROR: failure requesting IoTHubClient to send telemetry event.\n" []
          else
            Event.Log_Debug "INFO: IoTHubClient accepted the telemetry event for delivery.\n" []),
         Event.IoTHubMessage_Destroy]
      if s1.iothubClientHandle ≠ ClientHandle.null then
        let r := DoWork s1 env.callbacks
        (r.1, log1 ++ ev1 ++ ev2 ++ [Event.IoTHubDeviceClient_LL_DoWork] ++ r.2)
      else
        (s1, log1 ++ ev1 ++ ev2)

/-! ## Formatting the telemetry message (main.c:289-290) -/

/-- The `%d` conversion of `printf`. -/
def fmt_d (i : Int) : String := toString i

/-- The value `10 * num / den` rounded to the nearest integer, ties to the even one: the number
of tenths that `%.1f` prints for the magnitude `num / den` (the correctly rounded decimal
conversion of the C library, in the default rounding mode). -/
def roundTenths (num den : Nat) : Nat :=
  let n := 10 * num
  let q := n / den
  let r := n % den
  if 2 * r < den then q
  else if den < 2 * r then q + 1
  else if q % 2 = 0 then q else q + 1

/-- The magnitude of a finite float `mant * 2^exp` as a fraction `(numerator, denominator)`. -/
def magnitude (mant : Nat) (exp : Int) : Nat × Nat :=
  if 0 ≤ exp then (mant * 2 ^ exp.toNat, 1) else (mant, 2 ^ (-exp).toNat)

/-- The `%.1f` conversion of `printf` (the `float` argument is promoted to `double` without
change of value): sign, integer part, a point and one decimal. -/
def fmt_1f : CFloat → String
  | CFloat.finite neg mant exp =>
    let m := magnitude mant exp
    let t := roundTenths m.1 m.2
    (if neg then "-" else "") ++ toString (t / 10) ++ "." ++ toString (t % 10)
  | CFloat.inf neg => (if neg then "-" else "") ++ "inf"
  | CFloat.nan neg => (if neg then "-" else "") ++ "nan"

/-- The conversion `(uint16_t)x` of a `float`: the value truncated toward zero when that is in
`0 .. 65535`; `none` when the C standard leaves the conversion undefined. -/
def toUInt16 : CFloat → Option Nat
  | CFloat.finite neg mant exp =>
    let m := magnitude mant exp
    let t := m.1 / m.2
    if neg ∧ t ≠ 0 then none else if 65535 < t then none else some t
  | CFloat.inf _ => none
  | CFloat.nan _ => none

/-- The least value of the 32-bit `int` of the target. -/
abbrev INT_MIN : Int := -2147483648

/-- The greatest value of the 32-bit `int` of the target. -/
abbrev INT_MAX : Int := 2147483647

/-- The result of an `int` computation of the target: the mathematical value reduced to the
32-bit two's complement range. It is the value itself whenever that lies in
`INT_MIN .. INT_MAX`. -/
def wrapInt32 (i : Int) : Int := (i + 2147483648) % 4294967296 - 2147483648

/-- The text that the format string of main.c:289 expands to with the arguments of
main.c:290; the three sums `tm_year + 1900`, `tm_mon + 1` and `tm_hour + 8` are `int`
additions. -/
def telemetryText (lt : Tm) (temp humi light : CFloat) : String :=
  "\x7b\"Time\":\"" ++ fmt_d (wrapInt32 (lt.tm_year + 1900))
    ++ fmt_d (wrapInt32 (lt.tm_mon + 1)) ++ fmt_d lt.tm_mday
    ++ " " ++ fmt_d (wrapInt32 (lt.tm_hour + 8)) ++ ":" ++ fmt_d lt.tm_min ++ ":"
    ++ fmt_d lt.tm_sec
    ++ "\",\"Temperature\":" ++ fmt_1f temp ++ ",\"Humidity\":" ++ fmt_1f humi
    ++ ",\"Light\":" ++ fmt_1f light ++ "\x7d"

/-- The libc `snprintf(buffer, size, ...)` once the format is expanded to `text`: the buffer
receives at most `size - 1` characters and the return value is the length of the whole text;
when the library reports an error the return value is negative. -/
def snprintf (size : Nat) (error : Bool) (text : String) : String × Int :=
  if error then ("", -1) else (String.mk (text.toList.take (size - 1)), text.length)

/-! ## Provisioning (main.c:367-392, 463-483) -/

/-- Converts AZURE_SPHERE_PROV_RETURN_VALUE to a string (main.c:463-483). -/
def GetAzureSphereProvisioningResultString : AZURE_SPHERE_PROV_RESULT → String
  | AZURE_SPHERE_PROV_RESULT_OK => "AZURE_SPHERE_PROV_RESULT_OK"
  | AZURE_SPHERE_PROV_RESULT_INVALID_PARAM => "AZURE_SPHERE_PROV_RESULT_INVALID_PARAM"
  | AZURE_SPHERE_PROV_RESULT_NETWORK_NOT_READY => "AZURE_SPHERE_PROV_RESULT_NETWORK_NOT_READY"
  | AZURE_SPHERE_PROV_RESULT_DEVICEAUTH_NOT_READY =>
      "AZURE_SPHERE_PROV_RESULT_DEVICEAUTH_NOT_READY"
  | AZURE_SPHERE_PROV_RESULT_PROV_DEVICE_ERROR => "AZURE_SPHERE_PROV_RESULT_PROV_DEVICE_ERROR"
  | AZURE_SPHERE_PROV_RESULT_GENERIC_ERROR => "AZURE_SPHERE_PROV_RESULT_GENERIC_ERROR"
  | AZURE_SPHERE_PROV_RESULT.unknown _ => "UNKNOWN_RETURN_VALUE"

/-- What `IoTHubDeviceClient_LL_CreateWithAzureSphereDeviceAuthProvisioning` answers. -/
structure ProvisioningEnv where
  /-- The field `provResult.result`. -/
  result : AZURE_SPHERE_PROV_RESULT
  /-- Whether a failing call stores NULL through its handle out-parameter (otherwise a failing
  call leaves the variable as it was). -/
  failureStoresNull : Bool
  deriving DecidableEq, Repr

/-- Sets up the Azure IoT Hub connection (creates the iothubClientHandle) with DPS
(main.c:367-392). Returns the new state, the `bool` result and the calls made. -/
def SetUpAzureIoTHubClientWithDps (s : AppState) (prov : ProvisioningEnv) :
    AppState × Bool × List Event :=
  let destroy : ClientHandle × List Event :=
    if s.iothubClientHandle ≠ ClientHandle.null then
      (ClientHandle.destroyed, [Event.IoTHubDeviceClient_LL_Destroy])
    else
      (s.iothubClientHandle, [])
  let handle : ClientHandle :=
    if prov.result = AZURE_SPHERE_PROV_RESULT_OK then ClientHandle.live
    else if prov.failureStoresNull then ClientHandle.null
    else destroy.1
  let s1 := { s with iothubClientHandle := handle }
  let ev := destroy.2 ++
    [Event.IoTHubDeviceClient_LL_CreateWithAzureSphereDeviceAuthProvisioning s.scopeId 10000,
     Event.Log_Debug
       "IoTHubDeviceClient_LL_CreateWithAzureSphereDeviceAuthProvisioning returned '%s'.\n"
       [GetAzureSphereProvisioningResultString prov.result]]
  if prov.result ≠ AZURE_SPHERE_PROV_RESULT_OK then
    (s1, false, ev)
  else
    ({ s1 with iotHubClientAuthenticationState :=
        IoTHubClientAuthenticationState_Authenticated }, true,
      ev ++ [Event.IoTHubDeviceClient_LL_SetConnectionStatusCallback,
             Event.IoTHubDeviceClient_LL_SetDeviceMethodCallback])

/-! ## Command line (main.c:132-189) -/

/-- Signal handler for termination requests (main.c:132-136). -/
def TerminationHandler (s : AppState) : AppState :=
  { s with exitCode := ExitCode_TermHandler_SigTerm }

/-- One return of `getopt_long(argc, argv, "c:s:h:d:", cmdLineOptions, NULL)` other than the
final -1, together with `optarg`. The four options are declared `required_argument`, so the
library returns their letter only with a non-NULL `optarg`; any other return is `'?'` (an
unrecognised option or a missing argument), with whatever `optarg` then holds. -/
inductive GetoptResult
  | c (optarg : String)
  | s (optarg : String)
  | h (optarg : String)
  | d (optarg : String)
  | unrecognized (optarg : Option String)
  deriving DecidableEq, Repr

/-- The character returned by `getopt_long`. -/
def GetoptResult.option : GetoptResult → Char
  | GetoptResult.c _ => 'c'
  | GetoptResult.s _ => 's'
  | GetoptResult.h _ => 'h'
  | GetoptResult.d _ => 'd'
  | GetoptResult.unrecognized _ => '?'

/-- The variable `optarg` after the call. -/
def GetoptResult.optarg : GetoptResult → Option String
  | GetoptResult.c a => some a
  | GetoptResult.s a => some a
  | GetoptResult.h a => some a
  | GetoptResult.d a => some a
  | GetoptResult.unrecognized a => a

/-- The test `optarg != NULL && optarg[0] == '-'` (main.c:154). -/
def optargStartsWithDash : Option String → Bool
  | none => false
  | some a => a.toList.head? = some '-'

/-- The body of the `while` loop of `ParseCommandLineArguments` for one option
(main.c:153-187). -/
def parseOption (st : AppState) (r : GetoptResult) : AppState × List Event :=
  if optargStartsWithDash r.optarg then
    (st, [Event.Log_Debug "WARNING: Option %c requires an argument\n" [r.option.toString]])
  else
    match r with
    | GetoptResult.c optarg =>
      let log := [Event.Log_Debug "ConnectionType: %s\n" [optarg]]
      if strcmp optarg.toList "DPS".toList = 0 then
        ({ st with connectionType := ConnectionType_DPS }, log)
      else if strcmp optarg.toList "Direct".toList = 0 then
        ({ st with connectionType := ConnectionType_Direct }, log)
      else
        (st, log)
    | GetoptResult.s optarg =>
      ({ st with scopeId := some optarg }, [Event.Log_Debug "ScopeID: %s\n" [optarg]])
    | GetoptResult.h optarg =>
      ({ st with hubHostName := some optarg }, [Event.Log_Debug "Hostname: %s\n" [optarg]])
    | GetoptResult.d optarg =>
      ({ st with deviceId := some optarg }, [Event.Log_Debug "DeviceID: %s\n" [optarg]])
    | GetoptResult.unrecognized _ => (st, [])

/-- Parse the command line arguments given in the application manifest (main.c:141-189); the
argument is the sequence of answers of `getopt_long` up to its final -1. -/
def ParseCommandLineArguments (st : AppState) : List GetoptResult → AppState × List Event
  | [] => (st, [])
  | r :: rest =>
    let r1 := parseOption st r
    let r2 := ParseCommandLineArguments r1.1 rest
    (r2.1, r1.2 ++ r2.2)

/-! ## The main loop (main.c:194-306) -/

/-- What the outside world answers during one iteration of the main loop. -/
structure TickEnv where
  /-- Answer of the connectivity query of main.c:230. -/
  status : NetworkingResult
  /-- Answer of the provisioning call, when the iteration makes one. -/
  provisioning : ProvisioningEnv
  /-- Value returned by `GroveTempHumiSHT31_GetTemperature`. -/
  temp : CFloat
  /-- Value returned by `GroveTempHumiSHT31_GetHumidity`. -/
  humi : CFloat
  /-- Value returned by `GroveAD7992_ConvertToMillisVolt`. -/
  light : CFloat
  /-- The broken-down time returned by `localtime`. -/
  lt : Tm
  /-- Whether `snprintf` reports an error (negative return value). -/
  snprintfError : Bool
  /-- Answers to the calls made by `SendTelemetry`. -/
  send : SendEnv
  /-- Whether SIGTERM is delivered during this iteration (after the last write the iteration
  itself makes to `exitCode`; an earlier delivery that such a write overwrites is the same as
  no delivery). -/
  sigterm : Bool
  deriving DecidableEq, Repr

/-- Lines 230-247 of main.c: the connectivity query and, when connected and not authenticated,
the provisioning attempt. The `Bool` is true when the branch ends in `continue`. -/
def connectivityStep (s : AppState) (env : TickEnv) : AppState × Bool × List Event :=
  match env.status with
  | NetworkingResult.ok connectedToInternet =>
    if connectedToInternet ∧ s.iotHubClientAuthenticationState =
        IoTHubClientAuthenticationState_NotAuthenticated then
      let r := SetUpAzureIoTHubClientWithDps s env.provisioning
      (r.1, false, Event.Networking_GetInterfaceConnectionStatus :: r.2.2)
    else
      (s, false, [Event.Networking_GetInterfaceConnectionStatus])
  | NetworkingResult.failed errnoIsEAGAIN =>
    if ¬ errnoIsEAGAIN then
      ({ s with exitCode := ExitCode_InterfaceConnectionStatus_Failed }, true,
        [Event.Networking_GetInterfaceConnectionStatus,
         Event.Log_Debug "ERROR: Networking_GetInterfaceConnectionStatus: %d (%s)\n" []])
    else
      (s, false, [Event.Networking_GetInterfaceConnectionStatus])

/-- Lines 249-253 of main.c: reading the sensors. -/
def readSensors : List Event :=
  [Event.GroveTempHumiSHT31_Read, Event.GroveTempHumiSHT31_GetTemperature,
   Event.GroveTempHumiSHT31_GetHumidity, Event.GroveLightSensor_Read,
   Event.GroveAD7992_ConvertToMillisVolt]

/-- The body of the `for` loop of main.c:257-284 for one value of `i`. -/
def displayRow (temp humi light : CFloat) (i : Nat) : List Event :=
  [Event.setGrayLevel i]
  ++ (if i = 3 then
        [Event.setTextXY i 8, Event.putString "Temp:", Event.setTextXY i 64,
         Event.putNumber (toUInt16 temp)]
      else [])
  ++ (if i = 8 then
        [Event.setTextXY i 8, Event.putString "Humi:", Event.setTextXY i 64,
         Event.putNumber (toUInt16 humi)]
      else [])
  ++ (if i = 13 then
        [Event.setTextXY i 8, Event.putString "Light:", Event.setTextXY i 64,
         Event.putNumber (toUInt16 light)]
      else [])

/-- Lines 255-284 of main.c: rendering the values on the display. -/
def renderDisplay (temp humi light : CFloat) : List Event :=
  Event.clearDisplay ::
    (List.range 16).foldr (fun i rest => displayRow temp humi light i ++ rest) []

/-- One iteration of the `while` loop of main (main.c:229-302), entered with
`exitCode == ExitCode_Success`. -/
def mainLoopBody (s : AppState) (env : TickEnv) : AppState × List Event :=
  let (s1, continue1, ev1) := connectivityStep s env
  if continue1 then
    (s1, ev1)
  else
    let ev2 := readSensors ++ renderDisplay env.temp env.humi env.light
      ++ [Event.time, Event.localtime]
    let (telemetryBuffer, len) :=
      snprintf 100 env.snprintfError (telemetryText env.lt env.temp env.humi env.light)
    let ev3 := [Event.snprintf 100 len]
    if len < 0 ∨ len ≥ 100 then
      (s1, ev1 ++ ev2 ++ ev3 ++
        [Event.Log_Debug "ERROR: Cannot write telemetry to buffer.\n" []])
    else
      let r := SendTelemetry s1 telemetryBuffer env.send
      (r.1, ev1 ++ ev2 ++ ev3 ++ r.2 ++ [Event.usleep 5000000])

/-- One iteration together with the delivery of SIGTERM, if any, during it. -/
def tick (s : AppState) (env : TickEnv) : AppState × List Event :=
  let r := mainLoopBody s env
  (if env.sigterm then TerminationHandler r.1 else r.1, r.2)

/-- The `while (exitCode == ExitCode_Success)` loop of main (main.c:228-302), run on the
answers for the successive iterations. The first component is the state in which the loop
condition was found false, or `none` when the answers ran out with the loop still running. -/
def mainLoop (s : AppState) : List TickEnv → Option AppState × List Event
  | [] => if s.exitCode = ExitCode_Success then (none, []) else (some s, [])
  | env :: rest =>
    if s.exitCode = ExitCode_Success then
      let r1 := tick s env
      let r2 := mainLoop r1.1 rest
      (r2.1, r1.2 ++ r2.2)
    else
      (some s, [])

/-- The inputs of one run of the program. -/
structure MainEnv where
  /-- The answers of `getopt_long` for the command line. -/
  cmdLine : List GetoptResult
  /-- Whether SIGTERM is delivered after the handler is registered and before the loop
  condition is first evaluated. -/
  sigtermBeforeLoop : Bool
  /-- The answers for the successive iterations of the main loop. -/
  ticks : List TickEnv
  deriving DecidableEq, Repr

/-- The outcome of a run of `main`. -/
structure MainResult where
  /-- The value returned by `main`; `none` when the loop was still running. -/
  returned : Option Int
  /-- The variables when `main` returned (or when the answers ran out). -/
  final : Option AppState
  /-- Every external call made, in order. -/
  trace : List Event
  deriving DecidableEq, Repr

/-- The calls of main.c:196-216 that precede the loop, after the command line is parsed. -/
def startup : List Event :=
  [Event.sigaction, Event.GroveShield_Initialize, Event.GroveTempHumiSHT31_Open,
   Event.GroveLightSensor_Init, Event.GroveOledDisplay_Init, Event.GroveRelay_Open 4,
   Event.setNormalDisplay, Event.setVerticalMode]

/-- Main entry point (main.c:194-306). -/
def main (env : MainEnv) : MainResult :=
  let p := ParseCommandLineArguments AppState.initial env.cmdLine
  let s0 := if env.sigtermBeforeLoop then TerminationHandler p.1 else p.1
  let r := mainLoop s0 env.ticks
  let before := Event.Log_Debug "Application starting\n" [] :: p.2 ++ startup
  match r.1 with
  | some s => ⟨some 0, some s, before ++ r.2 ++ [Event.Log_Debug "Application exiting\n" []]⟩
  | none => ⟨none, none, before ++ r.2⟩

/-! ## Vocabulary of the properties -/

/-- The events that act on the relay or hold it: switching on, switching off, sleeping. -/
def Event.isRelayAction : Event → Bool
  | Event.GroveRelay_On => true
  | Event.GroveRelay_Off => true
  | Event.usleep _ => true
  | _ => false

/-- The events by which a message is handed to the transport: creating the message and
submitting it with `IoTHubDeviceClient_LL_SendEventAsync`. -/
def Event.isSubmission : Event → Bool
  | Event.IoTHubMessage_CreateFromString _ => true
  | Event.IoTHubDeviceClient_LL_SendEventAsync _ => true
  | _ => false

/-- The state after the connection-status callback has run once for each reason of the list,
every time with the status `IOTHUB_CLIENT_CONNECTION_AUTHENTICATED`. -/
def repeatAuthenticated (s : AppState) (reasons : List IOTHUB_CLIENT_CONNECTION_STATUS_REASON) :
    AppState :=
  reasons.foldl
    (fun st reason =>
      (ConnectionStatusCallback st IOTHUB_CLIENT_CONNECTION_AUTHENTICATED reason).1)
    s

/-- The `float` nearest to 23.4, `12268339 * 2^-19`. -/
def float_23_4 : CFloat := CFloat.finite false 12268339 (-19)

/-- The `float` nearest to 55.6, `14575206 * 2^-18`. -/
def float_55_6 : CFloat := CFloat.finite false 14575206 (-18)

/-- The `float` 100.0. -/
def float_100_0 : CFloat := CFloat.finite false 100 0

/-- The `float` `2^127`, whose `%.1f` rendering has 41 characters. -/
def float_2_pow_127 : CFloat := CFloat.finite false 1 127

/-- The steps of the program that touch the connection state, each with the external calls it
makes: the connectivity query of the main loop with the provisioning attempt it may trigger
(main.c:230-247); a connection-status callback, which the SDK fires from the pump of a live
handle; a call of `SendTelemetry` (which contains the pump); the delivery of SIGTERM. -/
inductive Step : AppState → List Event → AppState → Prop
  | connectivity (s : AppState) (env : TickEnv) :
      Step s (connectivityStep s env).2.2 (connectivityStep s env).1
  | callback (s : AppState) (result : IOTHUB_CLIENT_CONNECTION_STATUS)
      (reason : IOTHUB_CLIENT_CONNECTION_STATUS_REASON)
      (live : s.iothubClientHandle = ClientHandle.live) :
      Step s (ConnectionStatusCallback s result reason).2
        (ConnectionStatusCallback s result reason).1
  | send (s : AppState) (jsonMessage : String) (env : SendEnv) :
      Step s (SendTelemetry s jsonMessage env).2 (SendTelemetry s jsonMessage env).1
  | sigterm (s : AppState) : Step s [] (TerminationHandler s)

/-- The states the program can be in: the state left by parsing a command line from the
initial values, and every state a step leads to from there. -/
inductive Reachable : AppState → Prop
  | start (cmdLine : List GetoptResult) :
      Reachable (ParseCommandLineArguments AppState.initial cmdLine).1
  | step {s t : AppState} {trace : List Event} : Reachable s → Step s trace t → Reachable t

/-- Answers of a tick in which nothing goes wrong: the network is connected, provisioning
succeeds, the readings are 23.4, 55.6 and 100.0, the time is 2026-10-30 14:05:07, the message
is accepted and no callback is pending. -/
def TickEnv.nominal : TickEnv where
  status := NetworkingResult.ok true
  provisioning := ⟨AZURE_SPHERE_PROV_RESULT_OK, false⟩
  temp := float_23_4
  humi := float_55_6
  light := float_100_0
  lt := ⟨126, 9, 30, 14, 5, 7⟩
  snprintfError := false
  send := ⟨NetworkingResult.ok true, false, true, []⟩
  sigterm := false

/-- The calls of one iteration that precede `SendTelemetry` once the connectivity step is
done: sensors, display, clock and `snprintf`. -/
def preSendEvents (env : TickEnv) : List Event :=
  readSensors ++ renderDisplay env.temp env.humi env.light ++ [Event.time, Event.localtime]
    ++ [Event.snprintf 100
      (snprintf 100 env.snprintfError (telemetryText env.lt env.temp env.humi env.light)).2]

/-- The calls that read the sensors, draw on the display, read the clock or format. -/
def Event.isLocal : Event → Bool
  | Event.GroveTempHumiSHT31_Read => true
  | Event.GroveTempHumiSHT31_GetTemperature => true
  | Event.GroveTempHumiSHT31_GetHumidity => true
  | Event.GroveLightSensor_Read => true
  | Event.GroveAD7992_ConvertToMillisVolt => true
  | Event.clearDisplay => true
  | Event.setGrayLevel _ => true
  | Event.setTextXY _ _ => true
  | Event.putString _ => true
  | Event.putNumber _ => true
  | Event.time => true
  | Event.localtime => true
  | Event.snprintf _ _ => true
  | _ => false

/-- The calls a dispatched callback can make: logging, the relay pulse and `malloc`. -/
def Event.isCallbackCall : Event → Bool
  | Event.Log_Debug _ _ => true
  | Event.GroveRelay_On => true
  | Event.GroveRelay_Off => true
  | Event.usleep n => n = 1000000
  | Event.malloc _ => true
  | _ => false

/-- The calls `SendTelemetry` can make itself or through the callbacks it pumps. -/
def Event.isSendCall : Event → Bool
  | Event.Networking_GetInterfaceConnectionStatus => true
  | Event.IoTHubMessage_CreateFromString _ => true
  | Event.IoTHubDeviceClient_LL_SendEventAsync _ => true
  | Event.IoTHubMessage_Destroy => true
  | Event.IoTHubDeviceClient_LL_DoWork => true
  | e => e.isCallbackCall

/-- Answers of a tick whose three readings are `2^127`, so that the formatted text has 185
characters; everything else as in `TickEnv.nominal`. -/
def TickEnv.oversized : TickEnv :=
  { TickEnv.nominal with temp := float_2_pow_127, humi := float_2_pow_127,
                         light := float_2_pow_127 }

/-- A state in which the client is authenticated on a live handle. -/
def AppState.authenticated : AppState :=
  { AppState.initial with
    iotHubClientAuthenticationState := IoTHubClientAuthenticationState_Authenticated
    iothubClientHandle := ClientHandle.live }

/-- Answers of a tick whose connectivity query fails with an `errno` other than `EAGAIN`. -/
def TickEnv.hardFail : TickEnv :=
  { TickEnv.nominal with status := NetworkingResult.failed false }

/-- Answers of a nominal tick during which SIGTERM is delivered. -/
def TickEnv.lastTick : TickEnv :=
  { TickEnv.nominal with sigterm := true }

/-- The invariant of the connection state: Authenticated only on a live handle. -/
def AuthenticatedOnlyIfLive (s : AppState) : Prop :=
  s.iotHubClientAuthenticationState = IoTHubClientAuthenticationState_Authenticated →
    s.iothubClientHandle = ClientHandle.live

/-- The state after a successful provisioning from the initial state followed by a
connection-status callback that reports `IOTHUB_CLIENT_CONNECTION_UNAUTHENTICATED`:
NotAuthenticated, with the handle still live. -/
def AppState.deauthenticated : AppState :=
  (ConnectionStatusCallback
    (connectivityStep (ParseCommandLineArguments AppState.initial []).1 TickEnv.nominal).1
    IOTHUB_CLIENT_CONNECTION_UNAUTHENTICATED IOTHUB_CLIENT_CONNECTION_NO_NETWORK).1

/-- Answers of a nominal tick in which `snprintf` reports an error. -/
def TickEnv.formatError : TickEnv :=
  { TickEnv.nominal with snprintfError := true }

/-- The calendar times of C11: a four-digit year `tm_year + 1900`, a month `tm_mon + 1` in
1..12, a day in 1..31, `tm_hour` in 0..23, a minute in 0..59 and a second in 0..60. -/
def Tm.isCalendarTime (lt : Tm) : Prop :=
  (1000 ≤ lt.tm_year + 1900 ∧ lt.tm_year + 1900 ≤ 9999) ∧
  (1 ≤ lt.tm_mon + 1 ∧ lt.tm_mon + 1 ≤ 12) ∧
  (1 ≤ lt.tm_mday ∧ lt.tm_mday ≤ 31) ∧
  (0 ≤ lt.tm_hour ∧ lt.tm_hour ≤ 23) ∧
  (0 ≤ lt.tm_min ∧ lt.tm_min ≤ 59) ∧
  (0 ≤ lt.tm_sec ∧ lt.tm_sec ≤ 60)

/-- Ten times the value of a finite float as a fraction over the denominator of its
magnitude: `(-1)^neg * 10 * numerator`. -/
def signedTenths (neg : Bool) (num : Nat) : Int :=
  if neg then -((10 * num : Nat) : Int) else ((10 * num : Nat) : Int)

/-- The float is finite and its value lies between `lo / 10` and `hi / 10`, both included. -/
def CFloat.isBetweenTenths (lo hi : Int) : CFloat → Prop
  | CFloat.finite neg mant exp =>
    lo * ((magnitude mant exp).2 : Int) ≤ signedTenths neg (magnitude mant exp).1 ∧
      signedTenths neg (magnitude mant exp).1 ≤ hi * ((magnitude mant exp).2 : Int)
  | CFloat.inf _ => False
  | CFloat.nan _ => False

/-- The `float` nearest to 99999.9, `12799987 * 2^-7`. -/
def float_99999_9 : CFloat := CFloat.finite false 12799987 (-7)

/-- Answers of a tick with the longest fields of C11: the time 9999-12-31 23:59:60 and the
readings -40.0, 100.0 and 99999.9; everything else as in `TickEnv.nominal`. -/
def TickEnv.widest : TickEnv :=
  { TickEnv.nominal with
    lt := ⟨8099, 11, 31, 23, 59, 60⟩
    temp := CFloat.finite true 40 0
    humi := float_100_0
    light := float_99999_9 }

instance Tm.decidableIsCalendarTime (lt : Tm) : Decidable lt.isCalendarTime :=
  inferInstanceAs (Decidable (_ ∧ _ ∧ _ ∧ _ ∧ _ ∧ _))

instance CFloat.decidableIsBetweenTenths (lo hi : Int) :
    (x : CFloat) → Decidable (CFloat.isBetweenTenths lo hi x)
  | CFloat.finite _ _ _ => inferInstanceAs (Decidable (_ ∧ _))
  | CFloat.inf _ => inferInstanceAs (Decidable False)
  | CFloat.nan _ => inferInstanceAs (Decidable False)

/-- Every field of the broken-down time is a value of the 32-bit `int`. -/
def Tm.fieldsAreInt (lt : Tm) : Prop :=
  (INT_MIN ≤ lt.tm_year ∧ lt.tm_year ≤ INT_MAX) ∧
  (INT_MIN ≤ lt.tm_mon ∧ lt.tm_mon ≤ INT_MAX) ∧
  (INT_MIN ≤ lt.tm_mday ∧ lt.tm_mday ≤ INT_MAX) ∧
  (INT_MIN ≤ lt.tm_hour ∧ lt.tm_hour ≤ INT_MAX) ∧
  (INT_MIN ≤ lt.tm_min ∧ lt.tm_min ≤ INT_MAX) ∧
  (INT_MIN ≤ lt.tm_sec ∧ lt.tm_sec ≤ INT_MAX)

instance Tm.decidableFieldsAreInt (lt : Tm) : Decidable lt.fieldsAreInt :=
  inferInstanceAs (Decidable (_ ∧ _ ∧ _ ∧ _ ∧ _ ∧ _))

/-! # Properties -/

/-! ## Lemmas about the callbacks -/

theorem strcmp_eq_zero_iff (a b : List Char) : strcmp a b = 0 ↔ a = b := by
  induction a generalizing b with
  | nil => cases b <;> simp [strcmp]
  | cons x xs ih =>
    cases b with
    | nil => simp [strcmp]
    | cons y ys =>
      by_cases hxy : x = y
      · simp [strcmp, hxy, ih]
      · by_cases hlt : x.toNat < y.toNat <;> simp [strcmp, hxy, hlt]

theorem strcmp_toList_eq_zero_iff (a b : String) : strcmp a.toList b.toList = 0 ↔ a = b := by
  rw [strcmp_eq_zero_iff]
  constructor
  · intro h
    exact String.ext h
  · intro h
    rw [h]

theorem ConnectionStatusCallback_fst (s : AppState) (result : IOTHUB_CLIENT_CONNECTION_STATUS)
    (reason : IOTHUB_CLIENT_CONNECTION_STATUS_REASON) :
    (ConnectionStatusCallback s result reason).1 =
      { s with
        reasonString := (GetReasonString s reason).2
        iotHubClientAuthenticationState :=
          if result = IOTHUB_CLIENT_CONNECTION_AUTHENTICATED then
            IoTHubClientAuthenticationState_Authenticated
          else IoTHubClientAuthenticationState_NotAuthenticated } := by
  unfold ConnectionStatusCallback GetReasonString
  by_cases h : result = IOTHUB_CLIENT_CONNECTION_AUTHENTICATED <;> simp [h]

theorem ConnectionStatusCallback_snd (s : AppState) (result : IOTHUB_CLIENT_CONNECTION_STATUS)
    (reason : IOTHUB_CLIENT_CONNECTION_STATUS_REASON) :
    (ConnectionStatusCallback s result reason).2 =
      [Event.Log_Debug "Azure IoT connection status: %s\n" [(GetReasonString s reason).2]] := by
  unfold ConnectionStatusCallback GetReasonString
  by_cases h : result = IOTHUB_CLIENT_CONNECTION_AUTHENTICATED <;> simp [h]

theorem repeatAuthenticated_fields (reasons : List IOTHUB_CLIENT_CONNECTION_STATUS_REASON)
    (s : AppState)
    (h : s.iotHubClientAuthenticationState = IoTHubClientAuthenticationState_Authenticated) :
    (repeatAuthenticated s reasons).iotHubClientAuthenticationState =
        IoTHubClientAuthenticationState_Authenticated ∧
      (repeatAuthenticated s reasons).iothubClientHandle = s.iothubClientHandle ∧
      (repeatAuthenticated s reasons).exitCode = s.exitCode := by
  induction reasons generalizing s with
  | nil => exact ⟨h, rfl, rfl⟩
  | cons r rs ih =>
    have step := ih (ConnectionStatusCallback s IOTHUB_CLIENT_CONNECTION_AUTHENTICATED r).1
      (by rw [ConnectionStatusCallback_fst]; rfl)
    rw [ConnectionStatusCallback_fst] at step
    simpa [repeatAuthenticated, List.foldl, ConnectionStatusCallback_fst] using step

theorem SendTelemetry_not_authenticated_eq (s : AppState) (jsonMessage : String) (env : SendEnv)
    (h : s.iotHubClientAuthenticationState ≠ IoTHubClientAuthenticationState_Authenticated) :
    SendTelemetry s jsonMessage env =
      (s, [Event.Log_Debug
        "WARNING: Azure IoT Hub is not authenticated. Not sending telemetry.\n" []]) := by
  unfold SendTelemetry
  rw [if_pos h]

/-! ## C1 -/

/-- C1: in every authentication state other than Authenticated, for every payload and every
answer of the network, `SendTelemetry` only logs its warning and returns: the variables
(authentication state, handle, exitCode, and all others) are unchanged, and among the calls
made there is no message creation, no `IoTHubDeviceClient_LL_SendEventAsync`, no
`IoTHubDeviceClient_LL_DoWork` and no connectivity query. -/
theorem SendTelemetry_not_authenticated (s : AppState) (jsonMessage : String) (env : SendEnv)
    (h : s.iotHubClientAuthenticationState ≠ IoTHubClientAuthenticationState_Authenticated) :
    SendTelemetry s jsonMessage env =
        (s, [Event.Log_Debug
          "WARNING: Azure IoT Hub is not authenticated. Not sending telemetry.\n" []]) ∧
      (∀ e ∈ (SendTelemetry s jsonMessage env).2,
        e.isSubmission = false ∧ e ≠ Event.IoTHubDeviceClient_LL_DoWork ∧
          e ≠ Event.Networking_GetInterfaceConnectionStatus) := by
  have heq := SendTelemetry_not_authenticated_eq s jsonMessage env h
  refine ⟨heq, ?_⟩
  intro e he
  rw [heq] at he
  simp only [List.mem_singleton] at he
  subst he
  simp [Event.isSubmission]

/-- C1, at a concrete input: the initial state (NotAuthenticated) with a connected network. -/
theorem SendTelemetry_not_authenticated_witness :
    AppState.initial.iotHubClientAuthenticationState ≠
        IoTHubClientAuthenticationState_Authenticated ∧
      SendTelemetry AppState.initial "payload" ⟨NetworkingResult.ok true, false, true, []⟩ =
        (AppState.initial, [Event.Log_Debug
          "WARNING: Azure IoT Hub is not authenticated. Not sending telemetry.\n" []]) :=
  ⟨by decide,
   (SendTelemetry_not_authenticated AppState.initial "payload"
      ⟨NetworkingResult.ok true, false, true, []⟩ (by decide)).1⟩

/-! ## C2 -/

/-- C2: for every prior state, status value and reason, after `ConnectionStatusCallback` the
authentication state is Authenticated exactly when the status is
`IOTHUB_CLIENT_CONNECTION_AUTHENTICATED` and NotAuthenticated otherwise; the handle, exitCode and
the configuration variables are unchanged; and from Authenticated, any number of callbacks with
the authenticated status leaves the state Authenticated with handle and exitCode unchanged. -/
theorem ConnectionStatusCallback_state (s : AppState) (result : IOTHUB_CLIENT_CONNECTION_STATUS)
    (reason : IOTHUB_CLIENT_CONNECTION_STATUS_REASON) :
    ((ConnectionStatusCallback s result reason).1.iotHubClientAuthenticationState =
        IoTHubClientAuthenticationState_Authenticated ↔
      result = IOTHUB_CLIENT_CONNECTION_AUTHENTICATED) ∧
    (result ≠ IOTHUB_CLIENT_CONNECTION_AUTHENTICATED →
      (ConnectionStatusCallback s result reason).1.iotHubClientAuthenticationState =
        IoTHubClientAuthenticationState_NotAuthenticated) ∧
    (ConnectionStatusCallback s result reason).1.iothubClientHandle = s.iothubClientHandle ∧
    (ConnectionStatusCallback s result reason).1.exitCode = s.exitCode ∧
    (ConnectionStatusCallback s result reason).1.connectionType = s.connectionType ∧
    (ConnectionStatusCallback s result reason).1.scopeId = s.scopeId ∧
    (ConnectionStatusCallback s result reason).1.hubHostName = s.hubHostName ∧
    (ConnectionStatusCallback s result reason).1.deviceId = s.deviceId ∧
    (s.iotHubClientAuthenticationState = IoTHubClientAuthenticationState_Authenticated →
      ∀ reasons : List IOTHUB_CLIENT_CONNECTION_STATUS_REASON,
        (repeatAuthenticated s reasons).iotHubClientAuthenticationState =
            IoTHubClientAuthenticationState_Authenticated ∧
          (repeatAuthenticated s reasons).iothubClientHandle = s.iothubClientHandle ∧
          (repeatAuthenticated s reasons).exitCode = s.exitCode) := by
  rw [ConnectionStatusCallback_fst]
  refine ⟨?_, ?_, rfl, rfl, rfl, rfl, rfl, rfl,
    fun h reasons => repeatAuthenticated_fields reasons s h⟩
  · by_cases h : result = IOTHUB_CLIENT_CONNECTION_AUTHENTICATED <;> simp [h]
  · intro h
    simp [h]

/-- C2, at concrete inputs: an unauthenticated status fed while Authenticated, and three
authenticated callbacks in a row from Authenticated. -/
theorem ConnectionStatusCallback_state_witness :
    (ConnectionStatusCallback AppState.authenticated IOTHUB_CLIENT_CONNECTION_UNAUTHENTICATED
        IOTHUB_CLIENT_CONNECTION_NO_NETWORK).1.iotHubClientAuthenticationState =
      IoTHubClientAuthenticationState_NotAuthenticated ∧
    (repeatAuthenticated AppState.authenticated
        [IOTHUB_CLIENT_CONNECTION_OK, IOTHUB_CLIENT_CONNECTION_OK,
         IOTHUB_CLIENT_CONNECTION_STATUS_REASON.other 42]).iotHubClientAuthenticationState =
      IoTHubClientAuthenticationState_Authenticated :=
  ⟨(ConnectionStatusCallback_state AppState.authenticated
      IOTHUB_CLIENT_CONNECTION_UNAUTHENTICATED IOTHUB_CLIENT_CONNECTION_NO_NETWORK).2.1
      (by decide),
   ((ConnectionStatusCallback_state AppState.authenticated
      IOTHUB_CLIENT_CONNECTION_UNAUTHENTICATED IOTHUB_CLIENT_CONNECTION_NO_NETWORK).2.2.2.2.2.2.2.2
      rfl _).1⟩

/-! ## C3 -/

/-- C3: for every method name and payload, `DeviceMethodCallback` returns 200, the response
`"Alarm Triggered"` (quotes included) and performs exactly the relay actions on, sleep of one
second, off, when the name is exactly `TriggerAlarm`; for every other name it returns -1, the
two-character response of an empty JSON object, and performs no relay action. In both cases the
reported size is the length of the response. -/
theorem DeviceMethodCallback_dispatch (methodName : String) (payload : List Nat) :
    (methodName = "TriggerAlarm" →
      (DeviceMethodCallback methodName payload).1.result = 200 ∧
      (DeviceMethodCallback methodName payload).1.response = "\"Alarm Triggered\"".toList ∧
      (DeviceMethodCallback methodName payload).2.filter Event.isRelayAction =
        [Event.GroveRelay_On, Event.usleep 1000000, Event.GroveRelay_Off]) ∧
    (methodName ≠ "TriggerAlarm" →
      (DeviceMethodCallback methodName payload).1.result = -1 ∧
      (DeviceMethodCallback methodName payload).1.response = ['\x7b', '\x7d'] ∧
      (DeviceMethodCallback methodName payload).2.filter Event.isRelayAction = []) ∧
    (DeviceMethodCallback methodName payload).1.responseSize =
      (DeviceMethodCallback methodName payload).1.response.length := by
  have key : strcmp "TriggerAlarm".toList methodName.toList = 0 ↔
      methodName = "TriggerAlarm" := by
    rw [strcmp_toList_eq_zero_iff]; exact eq_comm
  by_cases h : methodName = "TriggerAlarm"
  · subst h
    refine ⟨fun _ => ⟨?_, ?_, ?_⟩, fun h => absurd rfl h, ?_⟩ <;> rfl
  · have hne : ¬ strcmp "TriggerAlarm".toList methodName.toList = 0 :=
      fun hz => h (key.mp hz)
    refine ⟨fun h1 => absurd h1 h, fun _ => ⟨?_, ?_, ?_⟩, ?_⟩
    all_goals simp only [DeviceMethodCallback, if_neg hne]
    all_goals rfl

/-- C3, at concrete inputs: the recognised name, and a case variant, a prefix and an extension
of it. -/
theorem DeviceMethodCallback_dispatch_witness :
    (DeviceMethodCallback "TriggerAlarm" []).1.result = 200 ∧
    (DeviceMethodCallback "triggeralarm" []).1.result = -1 ∧
    (DeviceMethodCallback "Trigger" [1, 2]).1.result = -1 ∧
    (DeviceMethodCallback "TriggerAlarmNow" []).1.result = -1 :=
  ⟨((DeviceMethodCallback_dispatch "TriggerAlarm" []).1 rfl).1,
   ((DeviceMethodCallback_dispatch "triggeralarm" []).2.1 (by decide)).1,
   ((DeviceMethodCallback_dispatch "Trigger" [1, 2]).2.1 (by decide)).1,
   ((DeviceMethodCallback_dispatch "TriggerAlarmNow" []).2.1 (by decide)).1⟩

/-! ## Lemmas about the calls made -/

theorem mainLoopBody_hardFail (s : AppState) (env : TickEnv)
    (hc : (connectivityStep s env).2.1 = true) :
    mainLoopBody s env = ((connectivityStep s env).1, (connectivityStep s env).2.2) := by
  unfold mainLoopBody
  simp [hc]

theorem mainLoopBody_overflow (s : AppState) (env : TickEnv)
    (hc : (connectivityStep s env).2.1 = false)
    (h : (snprintf 100 env.snprintfError
            (telemetryText env.lt env.temp env.humi env.light)).2 < 0 ∨
         100 ≤ (snprintf 100 env.snprintfError
            (telemetryText env.lt env.temp env.humi env.light)).2) :
    mainLoopBody s env =
      ((connectivityStep s env).1,
        (connectivityStep s env).2.2 ++ preSendEvents env ++
          [Event.Log_Debug "ERROR: Cannot write telemetry to buffer.\n" []]) := by
  unfold mainLoopBody preSendEvents
  simp [hc, h]

theorem mainLoopBody_fits (s : AppState) (env : TickEnv)
    (hc : (connectivityStep s env).2.1 = false)
    (h : ¬ ((snprintf 100 env.snprintfError
            (telemetryText env.lt env.temp env.humi env.light)).2 < 0 ∨
         100 ≤ (snprintf 100 env.snprintfError
            (telemetryText env.lt env.temp env.humi env.light)).2)) :
    mainLoopBody s env =
      ((SendTelemetry (connectivityStep s env).1
          (snprintf 100 env.snprintfError
            (telemetryText env.lt env.temp env.humi env.light)).1 env.send).1,
        (connectivityStep s env).2.2 ++ preSendEvents env ++
          (SendTelemetry (connectivityStep s env).1
            (snprintf 100 env.snprintfError
              (telemetryText env.lt env.temp env.humi env.light)).1 env.send).2 ++
          [Event.usleep 5000000]) := by
  unfold mainLoopBody preSendEvents
  simp [hc, h]

theorem SetUpAzureIoTHubClientWithDps_events (s : AppState) (prov : ProvisioningEnv) (e : Event)
    (he : e ∈ (SetUpAzureIoTHubClientWithDps s prov).2.2) :
    e = Event.IoTHubDeviceClient_LL_Destroy ∨
    e = Event.IoTHubDeviceClient_LL_CreateWithAzureSphereDeviceAuthProvisioning s.scopeId 10000 ∨
    e = Event.Log_Debug
       "IoTHubDeviceClient_LL_CreateWithAzureSphereDeviceAuthProvisioning returned '%s'.\n"
       [GetAzureSphereProvisioningResultString prov.result] ∨
    e = Event.IoTHubDeviceClient_LL_SetConnectionStatusCallback ∨
    e = Event.IoTHubDeviceClient_LL_SetDeviceMethodCallback := by
  unfold SetUpAzureIoTHubClientWithDps at he
  by_cases h1 : s.iothubClientHandle ≠ ClientHandle.null <;>
    by_cases h2 : prov.result ≠ AZURE_SPHERE_PROV_RESULT_OK <;>
    simp [h1, h2] at he <;> tauto

theorem connectivityStep_events (s : AppState) (env : TickEnv) (e : Event)
    (he : e ∈ (connectivityStep s env).2.2) :
    e = Event.Networking_GetInterfaceConnectionStatus ∨
    e = Event.Log_Debug "ERROR: Networking_GetInterfaceConnectionStatus: %d (%s)\n" [] ∨
    e ∈ (SetUpAzureIoTHubClientWithDps s env.provisioning).2.2 := by
  unfold connectivityStep at he
  split at he
  · split at he
    · simp at he
      tauto
    · simp at he
      tauto
  · split at he
    · simp at he
      tauto
    · simp at he
      tauto

theorem displayRows_events (temp humi light : CFloat) (rows : List Nat) (e : Event)
    (he : e ∈ rows.foldr (fun i rest => displayRow temp humi light i ++ rest) []) :
    ∃ i, e ∈ displayRow temp humi light i := by
  induction rows with
  | nil => simp at he
  | cons i rest ih =>
    simp only [List.foldr_cons, List.mem_append] at he
    rcases he with he | he
    · exact ⟨i, he⟩
    · exact ih he

theorem displayRow_events (temp humi light : CFloat) (i : Nat) (e : Event)
    (he : e ∈ displayRow temp humi light i) :
    (∃ n, e = Event.setGrayLevel n) ∨ (∃ r c, e = Event.setTextXY r c) ∨
      (∃ t, e = Event.putString t) ∨ (∃ n, e = Event.putNumber n) := by
  unfold displayRow at he
  simp only [List.mem_append, List.mem_singleton] at he
  rcases he with ((he | he) | he) | he
  · exact Or.inl ⟨i, he⟩
  all_goals
    split at he
    · simp only [List.mem_cons, List.mem_singleton, List.not_mem_nil, or_false] at he
      rcases he with he | he | he | he
      · exact Or.inr (Or.inl ⟨_, _, he⟩)
      · exact Or.inr (Or.inr (Or.inl ⟨_, he⟩))
      · exact Or.inr (Or.inl ⟨_, _, he⟩)
      · exact Or.inr (Or.inr (Or.inr ⟨_, he⟩))
    · simp at he

theorem preSendEvents_isLocal (env : TickEnv) (e : Event) (he : e ∈ preSendEvents env) :
    e.isLocal = true := by
  unfold preSendEvents renderDisplay readSensors at he
  simp only [List.mem_append, List.mem_cons, List.mem_singleton, List.not_mem_nil,
    or_false] at he
  rcases he with ((h | h) | h) | h
  · rcases h with h | h | h | h | h <;> subst h <;> rfl
  · rcases h with h | h
    · subst h; rfl
    · obtain ⟨i, hi⟩ := displayRows_events _ _ _ _ _ h
      rcases displayRow_events _ _ _ _ _ hi with ⟨n, h⟩ | ⟨r, c, h⟩ | ⟨t, h⟩ | ⟨n, h⟩ <;>
        subst h <;> rfl
  · rcases h with h | h <;> subst h <;> rfl
  · subst h; rfl

theorem DeviceMethodCallback_events (methodName : String) (payload : List Nat) (e : Event)
    (he : e ∈ (DeviceMethodCallback methodName payload).2) :
    (∃ f a, e = Event.Log_Debug f a) ∨ e = Event.GroveRelay_On ∨ e = Event.usleep 1000000 ∨
      e = Event.GroveRelay_Off ∨ (∃ n, e = Event.malloc n) := by
  unfold DeviceMethodCallback at he
  by_cases h : strcmp "TriggerAlarm".toList methodName.toList = 0
  · simp only [if_pos h, List.mem_append, List.mem_cons, List.mem_singleton, List.not_mem_nil,
      or_false] at he
    rcases he with (he | he | he | he | he) | he
    · exact Or.inl ⟨_, _, he⟩
    · exact Or.inl ⟨_, _, he⟩
    · exact Or.inr (Or.inl he)
    · exact Or.inr (Or.inr (Or.inl he))
    · exact Or.inr (Or.inr (Or.inr (Or.inl he)))
    · exact Or.inr (Or.inr (Or.inr (Or.inr ⟨_, he⟩)))
  · simp only [if_neg h, List.mem_append, List.mem_cons, List.mem_singleton, List.not_mem_nil,
      or_false] at he
    rcases he with he | he
    · exact Or.inl ⟨_, _, he⟩
    · exact Or.inr (Or.inr (Or.inr (Or.inr ⟨_, he⟩)))

theorem Callback_run_events (s : AppState) (cb : Callback) (e : Event)
    (he : e ∈ (cb.run s).2) : e.isCallbackCall = true := by
  cases cb with
  | connectionStatus result reason =>
    simp only [Callback.run, ConnectionStatusCallback_snd, List.mem_singleton] at he
    subst he; rfl
  | deviceMethod methodName payload =>
    simp only [Callback.run] at he
    rcases DeviceMethodCallback_events _ _ _ he with ⟨f, a, h⟩ | h | h | h | ⟨n, h⟩ <;>
      subst h <;> simp [Event.isCallbackCall]
  | sendEvent result =>
    simp only [Callback.run, SendEventCallback, List.mem_singleton] at he
    subst he; rfl

theorem DoWork_events (cbs : List Callback) (s : AppState) (e : Event)
    (he : e ∈ (DoWork s cbs).2) : e.isCallbackCall = true := by
  induction cbs generalizing s with
  | nil => simp [DoWork] at he
  | cons cb rest ih =>
    simp only [DoWork, List.mem_append] at he
    rcases he with he | he
    · exact Callback_run_events s cb e he
    · exact ih _ he

theorem IsConnectionReadyToSendTelemetry_events (s : AppState) (status : NetworkingResult)
    (e : Event) (he : e ∈ (IsConnectionReadyToSendTelemetry s status).2.2) :
    e.isSendCall = true := by
  unfold IsConnectionReadyToSendTelemetry at he
  rcases status with c | g
  · cases c <;>
      simp only [if_true, if_false, Bool.false_eq_true, not_false_eq_true, not_true_eq_false,
        List.mem_cons, List.mem_singleton, List.not_mem_nil, or_false, reduceCtorEq] at he
    · rcases he with he | he <;> subst he <;> rfl
    · subst he; rfl
  · cases g <;>
      simp only [if_true, if_false, Bool.false_eq_true, not_false_eq_true, not_true_eq_false,
        List.mem_cons, List.mem_singleton, List.not_mem_nil, or_false, reduceCtorEq] at he <;>
      rcases he with he | he <;> subst he <;> rfl

theorem SendTelemetry_events (s : AppState) (jsonMessage : String) (env : SendEnv) (e : Event)
    (he : e ∈ (SendTelemetry s jsonMessage env).2) : e.isSendCall = true := by
  unfold SendTelemetry at he
  split at he
  · simp only [List.mem_singleton] at he
    subst he; rfl
  · have hready := IsConnectionReadyToSendTelemetry_events s env.status e
    simp only at he
    split at he
    · simp only [List.mem_append, List.mem_singleton] at he
      rcases he with he | he
      · subst he; rfl
      · exact hready he
    · split at he
      · simp only [List.mem_append, List.mem_cons, List.mem_singleton, List.not_mem_nil,
          or_false] at he
        rcases he with (he | he) | he | he
        · subst he; rfl
        · exact hready he
        · subst he; rfl
        · subst he; rfl
      · split at he
        · simp only [List.mem_append, List.mem_cons, List.mem_singleton, List.not_mem_nil,
            or_false] at he
          rcases he with ((((he | he) | he | he | he | he) | he) | he)
          · subst he; rfl
          · exact hready he
          · subst he; rfl
          · subst he; rfl
          · subst he; split <;> rfl
          · subst he; rfl
          · subst he; rfl
          · have := DoWork_events _ _ _ he
            cases e <;> simp_all [Event.isSendCall, Event.isCallbackCall]
        · simp only [List.mem_append, List.mem_cons, List.mem_singleton, List.not_mem_nil,
            or_false] at he
          rcases he with ((he | he) | he | he | he | he)
          · subst he; rfl
          · exact hready he
          · subst he; rfl
          · subst he; rfl
          · subst he; split <;> rfl
          · subst he; rfl

/-! ## C4 -/

/-- C4: in every iteration of the main loop in which `snprintf` returns a negative value or a
length of 100 or more, no message is created, `IoTHubDeviceClient_LL_SendEventAsync` is not
called and the transport is not pumped: the iteration ends in the state the connectivity step
left, without calling `SendTelemetry`. -/
theorem mainLoopBody_overflow_no_submission (s : AppState) (env : TickEnv)
    (h : (snprintf 100 env.snprintfError
            (telemetryText env.lt env.temp env.humi env.light)).2 < 0 ∨
         100 ≤ (snprintf 100 env.snprintfError
            (telemetryText env.lt env.temp env.humi env.light)).2) :
    (∀ e ∈ (mainLoopBody s env).2,
        e.isSubmission = false ∧ e ≠ Event.IoTHubDeviceClient_LL_DoWork) ∧
      (mainLoopBody s env).1 = (connectivityStep s env).1 := by
  have hconn : ∀ e ∈ (connectivityStep s env).2.2,
      e.isSubmission = false ∧ e ≠ Event.IoTHubDeviceClient_LL_DoWork := by
    intro e he
    rcases connectivityStep_events s env e he with h1 | h1 | h1
    · subst h1; exact ⟨rfl, by simp⟩
    · subst h1; exact ⟨rfl, by simp⟩
    · rcases SetUpAzureIoTHubClientWithDps_events s env.provisioning e h1 with
        h2 | h2 | h2 | h2 | h2 <;> subst h2 <;> exact ⟨rfl, by simp⟩
  by_cases hc : (connectivityStep s env).2.1 = true
  · rw [mainLoopBody_hardFail s env hc]
    exact ⟨hconn, rfl⟩
  · rw [mainLoopBody_overflow s env (by simpa using hc) h]
    refine ⟨?_, rfl⟩
    intro e he
    simp only [List.mem_append, List.mem_singleton] at he
    rcases he with (he | he) | he
    · exact hconn e he
    · have hl := preSendEvents_isLocal env e he
      cases e <;> simp_all [Event.isLocal, Event.isSubmission]
    · subst he; exact ⟨rfl, by simp⟩

set_option maxRecDepth 20000 in
/-- C4, at concrete inputs: three readings of `2^127` give a text of 185 characters, and an
error of `snprintf` gives a negative return value; neither iteration submits anything. -/
theorem mainLoopBody_overflow_no_submission_witness :
    (100 : Int) ≤ (snprintf 100 TickEnv.oversized.snprintfError
        (telemetryText TickEnv.oversized.lt TickEnv.oversized.temp TickEnv.oversized.humi
          TickEnv.oversized.light)).2 ∧
      (∀ e ∈ (mainLoopBody AppState.initial TickEnv.oversized).2,
        e.isSubmission = false ∧ e ≠ Event.IoTHubDeviceClient_LL_DoWork) ∧
      (snprintf 100 TickEnv.formatError.snprintfError
        (telemetryText TickEnv.formatError.lt TickEnv.formatError.temp
          TickEnv.formatError.humi TickEnv.formatError.light)).2 < 0 ∧
      (∀ e ∈ (mainLoopBody AppState.authenticated TickEnv.formatError).2,
        e.isSubmission = false ∧ e ≠ Event.IoTHubDeviceClient_LL_DoWork) :=
  ⟨by decide,
   (mainLoopBody_overflow_no_submission AppState.initial TickEnv.oversized
      (Or.inr (by decide))).1,
   by decide,
   (mainLoopBody_overflow_no_submission AppState.authenticated TickEnv.formatError
      (Or.inl (by decide))).1⟩

/-! ## C5 -/

/-- C5, as stated, fails: called in the state Authenticated with a provisioning result that is
an error, `SetUpAzureIoTHubClientWithDps` returns false and leaves the state Authenticated, not
NotAuthenticated. -/
theorem SetUpAzureIoTHubClientWithDps_failure_keeps_Authenticated :
    (SetUpAzureIoTHubClientWithDps AppState.authenticated
        ⟨AZURE_SPHERE_PROV_RESULT_GENERIC_ERROR, false⟩).2.1 = false ∧
      (SetUpAzureIoTHubClientWithDps AppState.authenticated
        ⟨AZURE_SPHERE_PROV_RESULT_GENERIC_ERROR, false⟩).1.iotHubClientAuthenticationState =
        IoTHubClientAuthenticationState_Authenticated ∧
      (SetUpAzureIoTHubClientWithDps AppState.authenticated
        ⟨AZURE_SPHERE_PROV_RESULT_GENERIC_ERROR, false⟩).1.iotHubClientAuthenticationState ≠
        IoTHubClientAuthenticationState_NotAuthenticated := by
  decide

/-- C5, amended: for every prior state and every provisioning result,
`SetUpAzureIoTHubClientWithDps` returns true exactly when the result is OK; when the result is
OK the authentication state becomes Authenticated; when it is any other value the
authentication state is left as it was, so it is NotAuthenticated whenever the call starts
from NotAuthenticated. -/
theorem SetUpAzureIoTHubClientWithDps_state (s : AppState) (prov : ProvisioningEnv) :
    ((SetUpAzureIoTHubClientWithDps s prov).2.1 = true ↔
        prov.result = AZURE_SPHERE_PROV_RESULT_OK) ∧
    (prov.result = AZURE_SPHERE_PROV_RESULT_OK →
      (SetUpAzureIoTHubClientWithDps s prov).1.iotHubClientAuthenticationState =
        IoTHubClientAuthenticationState_Authenticated) ∧
    (prov.result ≠ AZURE_SPHERE_PROV_RESULT_OK →
      (SetUpAzureIoTHubClientWithDps s prov).1.iotHubClientAuthenticationState =
        s.iotHubClientAuthenticationState) ∧
    (prov.result ≠ AZURE_SPHERE_PROV_RESULT_OK →
      s.iotHubClientAuthenticationState = IoTHubClientAuthenticationState_NotAuthenticated →
      (SetUpAzureIoTHubClientWithDps s prov).1.iotHubClientAuthenticationState =
        IoTHubClientAuthenticationState_NotAuthenticated) := by
  unfold SetUpAzureIoTHubClientWithDps
  by_cases h : prov.result = AZURE_SPHERE_PROV_RESULT_OK
  · simp [h]
  · simp [h]

/-- C5 amended, at concrete inputs: success from NotAuthenticated, and each kind of failure
from NotAuthenticated. -/
theorem SetUpAzureIoTHubClientWithDps_state_witness :
    (SetUpAzureIoTHubClientWithDps AppState.initial
        ⟨AZURE_SPHERE_PROV_RESULT_OK, false⟩).1.iotHubClientAuthenticationState =
        IoTHubClientAuthenticationState_Authenticated ∧
      (SetUpAzureIoTHubClientWithDps AppState.initial
        ⟨AZURE_SPHERE_PROV_RESULT_NETWORK_NOT_READY, true⟩).1.iotHubClientAuthenticationState =
        IoTHubClientAuthenticationState_NotAuthenticated ∧
      (SetUpAzureIoTHubClientWithDps AppState.initial
        ⟨AZURE_SPHERE_PROV_RESULT.unknown 7, false⟩).1.iotHubClientAuthenticationState =
        IoTHubClientAuthenticationState_NotAuthenticated :=
  ⟨(SetUpAzureIoTHubClientWithDps_state AppState.initial
      ⟨AZURE_SPHERE_PROV_RESULT_OK, false⟩).2.1 rfl,
   (SetUpAzureIoTHubClientWithDps_state AppState.initial
      ⟨AZURE_SPHERE_PROV_RESULT_NETWORK_NOT_READY, true⟩).2.2.2 (by decide) rfl,
   (SetUpAzureIoTHubClientWithDps_state AppState.initial
      ⟨AZURE_SPHERE_PROV_RESULT.unknown 7, false⟩).2.2.2 (by decide) rfl⟩

/-! ## Lemmas about the variables -/

theorem Callback_run_fields (s : AppState) (cb : Callback) :
    (cb.run s).1.iothubClientHandle = s.iothubClientHandle ∧
      (cb.run s).1.exitCode = s.exitCode := by
  cases cb with
  | connectionStatus result reason =>
    simp only [Callback.run, ConnectionStatusCallback_fst, and_self]
  | deviceMethod methodName payload => exact ⟨rfl, rfl⟩
  | sendEvent result => exact ⟨rfl, rfl⟩

theorem DoWork_fields (cbs : List Callback) (s : AppState) :
    (DoWork s cbs).1.iothubClientHandle = s.iothubClientHandle ∧
      (DoWork s cbs).1.exitCode = s.exitCode := by
  induction cbs generalizing s with
  | nil => exact ⟨rfl, rfl⟩
  | cons cb rest ih =>
    simp only [DoWork]
    rw [(ih (cb.run s).1).1, (ih (cb.run s).1).2]
    exact Callback_run_fields s cb

theorem IsConnectionReadyToSendTelemetry_fields (s : AppState) (status : NetworkingResult) :
    (IsConnectionReadyToSendTelemetry s status).1.iothubClientHandle = s.iothubClientHandle ∧
      (IsConnectionReadyToSendTelemetry s status).1.iotHubClientAuthenticationState =
        s.iotHubClientAuthenticationState ∧
      ((IsConnectionReadyToSendTelemetry s status).1.exitCode = s.exitCode ∨
        (IsConnectionReadyToSendTelemetry s status).1.exitCode =
          ExitCode_InterfaceConnectionStatus_Failed) := by
  unfold IsConnectionReadyToSendTelemetry
  rcases status with c | g
  · cases c <;> simp
  · cases g <;> simp

theorem SendTelemetry_fields (s : AppState) (jsonMessage : String) (env : SendEnv) :
    (SendTelemetry s jsonMessage env).1.iothubClientHandle = s.iothubClientHandle ∧
      ((SendTelemetry s jsonMessage env).1.exitCode = s.exitCode ∨
        (SendTelemetry s jsonMessage env).1.exitCode =
          ExitCode_InterfaceConnectionStatus_Failed) := by
  have hr := IsConnectionReadyToSendTelemetry_fields s env.status
  unfold SendTelemetry
  split
  · exact ⟨rfl, Or.inl rfl⟩
  · simp only
    split
    · exact ⟨hr.1, hr.2.2⟩
    · split
      · exact ⟨hr.1, hr.2.2⟩
      · split
        · simp only
          rw [(DoWork_fields _ _).1, (DoWork_fields _ _).2]
          exact ⟨hr.1, hr.2.2⟩
        · exact ⟨hr.1, hr.2.2⟩

theorem SetUpAzureIoTHubClientWithDps_fields (s : AppState) (prov : ProvisioningEnv) :
    (SetUpAzureIoTHubClientWithDps s prov).1.exitCode = s.exitCode ∧
      (prov.result = AZURE_SPHERE_PROV_RESULT_OK →
        (SetUpAzureIoTHubClientWithDps s prov).1.iotHubClientAuthenticationState =
            IoTHubClientAuthenticationState_Authenticated ∧
          (SetUpAzureIoTHubClientWithDps s prov).1.iothubClientHandle = ClientHandle.live) ∧
      (prov.result ≠ AZURE_SPHERE_PROV_RESULT_OK →
        (SetUpAzureIoTHubClientWithDps s prov).1.iotHubClientAuthenticationState =
          s.iotHubClientAuthenticationState) := by
  unfold SetUpAzureIoTHubClientWithDps
  by_cases h : prov.result = AZURE_SPHERE_PROV_RESULT_OK
  · simp [h]
  · simp [h]

theorem connectivityStep_exitCode (s : AppState) (env : TickEnv) :
    ((connectivityStep s env).2.1 = false ∧ (connectivityStep s env).1.exitCode = s.exitCode) ∨
      ((connectivityStep s env).2.1 = true ∧
        (connectivityStep s env).1.exitCode = ExitCode_InterfaceConnectionStatus_Failed) := by
  unfold connectivityStep
  split
  · split
    · exact Or.inl ⟨rfl, (SetUpAzureIoTHubClientWithDps_fields s env.provisioning).1⟩
    · exact Or.inl ⟨rfl, rfl⟩
  · split
    · exact Or.inr ⟨rfl, rfl⟩
    · exact Or.inl ⟨rfl, rfl⟩

theorem parseOption_fields (st : AppState) (r : GetoptResult) :
    (parseOption st r).1.exitCode = st.exitCode ∧
      (parseOption st r).1.iotHubClientAuthenticationState =
        st.iotHubClientAuthenticationState ∧
      (parseOption st r).1.iothubClientHandle = st.iothubClientHandle := by
  unfold parseOption
  split
  · exact ⟨rfl, rfl, rfl⟩
  · cases r with
    | c optarg =>
      simp only
      split
      · exact ⟨rfl, rfl, rfl⟩
      · split <;> exact ⟨rfl, rfl, rfl⟩
    | s optarg => exact ⟨rfl, rfl, rfl⟩
    | h optarg => exact ⟨rfl, rfl, rfl⟩
    | d optarg => exact ⟨rfl, rfl, rfl⟩
    | unrecognized optarg => exact ⟨rfl, rfl, rfl⟩

theorem ParseCommandLineArguments_fields (cmdLine : List GetoptResult) (st : AppState) :
    (ParseCommandLineArguments st cmdLine).1.exitCode = st.exitCode ∧
      (ParseCommandLineArguments st cmdLine).1.iotHubClientAuthenticationState =
        st.iotHubClientAuthenticationState ∧
      (ParseCommandLineArguments st cmdLine).1.iothubClientHandle = st.iothubClientHandle := by
  induction cmdLine generalizing st with
  | nil => exact ⟨rfl, rfl, rfl⟩
  | cons r rest ih =>
    simp only [ParseCommandLineArguments]
    obtain ⟨h1, h2, h3⟩ := ih (parseOption st r).1
    obtain ⟨g1, g2, g3⟩ := parseOption_fields st r
    exact ⟨h1.trans g1, h2.trans g2, h3.trans g3⟩

theorem mainLoopBody_exitCode (s : AppState) (env : TickEnv) :
    (mainLoopBody s env).1.exitCode = s.exitCode ∨
      (mainLoopBody s env).1.exitCode = ExitCode_InterfaceConnectionStatus_Failed := by
  rcases connectivityStep_exitCode s env with ⟨hc, he⟩ | ⟨hc, he⟩
  · by_cases h : (snprintf 100 env.snprintfError
            (telemetryText env.lt env.temp env.humi env.light)).2 < 0 ∨
         100 ≤ (snprintf 100 env.snprintfError
            (telemetryText env.lt env.temp env.humi env.light)).2
    · rw [mainLoopBody_overflow s env hc h]
      exact Or.inl he
    · rw [mainLoopBody_fits s env hc h]
      rcases (SendTelemetry_fields (connectivityStep s env).1
          (snprintf 100 env.snprintfError
            (telemetryText env.lt env.temp env.humi env.light)).1 env.send).2 with h1 | h1
      · exact Or.inl (h1.trans he)
      · exact Or.inr h1
  · rw [mainLoopBody_hardFail s env hc]
    exact Or.inr he

theorem tick_exitCode (s : AppState) (env : TickEnv) :
    (tick s env).1.exitCode = s.exitCode ∨
      (tick s env).1.exitCode = ExitCode_TermHandler_SigTerm ∨
      (tick s env).1.exitCode = ExitCode_InterfaceConnectionStatus_Failed := by
  unfold tick
  by_cases h : env.sigterm = true
  · simp [h, TerminationHandler]
  · simp only [h]
    rcases mainLoopBody_exitCode s env with h1 | h1
    · exact Or.inl h1
    · exact Or.inr (Or.inr h1)

theorem mainLoop_final (ticks : List TickEnv) (s sfin : AppState)
    (hs : s.exitCode = ExitCode_Success ∨ s.exitCode = ExitCode_TermHandler_SigTerm ∨
      s.exitCode = ExitCode_InterfaceConnectionStatus_Failed)
    (h : (mainLoop s ticks).1 = some sfin) :
    sfin.exitCode = ExitCode_TermHandler_SigTerm ∨
      sfin.exitCode = ExitCode_InterfaceConnectionStatus_Failed := by
  induction ticks generalizing s with
  | nil =>
    unfold mainLoop at h
    by_cases h0 : s.exitCode = ExitCode_Success
    · simp [h0] at h
    · simp only [if_neg h0, Option.some.injEq] at h
      subst h
      rcases hs with hs | hs
      · exact absurd hs h0
      · exact hs
  | cons env rest ih =>
    unfold mainLoop at h
    by_cases h0 : s.exitCode = ExitCode_Success
    · simp only [if_pos h0] at h
      refine ih (tick s env).1 ?_ h
      rcases tick_exitCode s env with h1 | h1 | h1
      · exact Or.inl (h1.trans h0)
      · exact Or.inr (Or.inl h1)
      · exact Or.inr (Or.inr h1)
    · simp only [if_neg h0, Option.some.injEq] at h
      subst h
      rcases hs with hs | hs
      · exact absurd hs h0
      · exact hs

/-! ## C6 -/

theorem main_returned (env : MainEnv) (v : Int) (h : (main env).returned = some v) : v = 0 := by
  unfold main at h
  simp only at h
  cases hr : (mainLoop (if env.sigtermBeforeLoop = true then
      TerminationHandler (ParseCommandLineArguments AppState.initial env.cmdLine).1
    else (ParseCommandLineArguments AppState.initial env.cmdLine).1) env.ticks).1 with
  | none => simp [hr] at h
  | some sfin =>
    simp only [hr, Option.some.injEq] at h
    exact h.symm

/-- C6 (the code departs from the claim): when SIGTERM is observed `exitCode` is 1 and when the
connectivity query hard-fails `exitCode` is 16, yet in both runs `main` returns 0, as it does in
every run that returns. -/
theorem main_returns_zero_whatever_the_cause :
    (main ⟨[], true, []⟩).returned = some 0 ∧
    (main ⟨[], true, []⟩).final.map AppState.exitCode = some ExitCode_TermHandler_SigTerm ∧
    (main ⟨[], false, [TickEnv.hardFail]⟩).returned = some 0 ∧
    (main ⟨[], false, [TickEnv.hardFail]⟩).final.map AppState.exitCode =
      some ExitCode_InterfaceConnectionStatus_Failed ∧
    (∀ (env : MainEnv) (v : Int), (main env).returned = some v → v = 0) :=
  ⟨by decide, by decide, by decide, by decide, main_returned⟩

/-! ## C7 -/

set_option maxRecDepth 20000 in
/-- C7, as stated, fails: with a ConnectionType option of value `MQTT` (neither `DPS` nor
`Direct`) and no ScopeID, the connection type stays NotDefined, and still the main loop is
entered, provisioning is attempted (with a NULL scope id), and the run ends on SIGTERM with
`exitCode` 1, not with a validation code. -/
theorem main_runs_with_undefined_connectionType :
    (ParseCommandLineArguments AppState.initial [GetoptResult.c "MQTT"]).1.connectionType =
      ConnectionType_NotDefined ∧
    (ParseCommandLineArguments AppState.initial [GetoptResult.c "MQTT"]).1.scopeId = none ∧
    Event.IoTHubDeviceClient_LL_CreateWithAzureSphereDeviceAuthProvisioning none 10000 ∈
      (main ⟨[GetoptResult.c "MQTT"], false, [TickEnv.lastTick]⟩).trace ∧
    Event.usleep 5000000 ∈ (main ⟨[GetoptResult.c "MQTT"], false, [TickEnv.lastTick]⟩).trace ∧
    (main ⟨[GetoptResult.c "MQTT"], false, [TickEnv.lastTick]⟩).final.map AppState.exitCode =
      some ExitCode_TermHandler_SigTerm := by
  decide

theorem parseOption_connectionType (st : AppState) (r : GetoptResult)
    (h1 : r ≠ GetoptResult.c "DPS") (h2 : r ≠ GetoptResult.c "Direct") :
    (parseOption st r).1.connectionType = st.connectionType := by
  unfold parseOption
  split
  · rfl
  · cases r with
    | c optarg =>
      have g1 : ¬ strcmp optarg.toList "DPS".toList = 0 := by
        rw [strcmp_toList_eq_zero_iff]
        intro h
        exact h1 (by rw [h])
      have g2 : ¬ strcmp optarg.toList "Direct".toList = 0 := by
        rw [strcmp_toList_eq_zero_iff]
        intro h
        exact h2 (by rw [h])
      simp only [if_neg g1, if_neg g2]
    | s optarg => rfl
    | h optarg => rfl
    | d optarg => rfl
    | unrecognized optarg => rfl

theorem ParseCommandLineArguments_connectionType (cmdLine : List GetoptResult) (st : AppState)
    (h : ∀ r ∈ cmdLine, r ≠ GetoptResult.c "DPS" ∧ r ≠ GetoptResult.c "Direct") :
    (ParseCommandLineArguments st cmdLine).1.connectionType = st.connectionType := by
  induction cmdLine generalizing st with
  | nil => rfl
  | cons r rest ih =>
    simp only [ParseCommandLineArguments]
    rw [ih _ (fun r1 hr1 => h r1 (List.mem_cons_of_mem _ hr1))]
    exact parseOption_connectionType st r (h r (List.mem_cons_self _ _)).1
      (h r (List.mem_cons_self _ _)).2

theorem main_final (env : MainEnv) (sfin : AppState) (h : (main env).final = some sfin) :
    sfin.exitCode = ExitCode_TermHandler_SigTerm ∨
      sfin.exitCode = ExitCode_InterfaceConnectionStatus_Failed := by
  have hp := (ParseCommandLineArguments_fields env.cmdLine AppState.initial).1
  unfold main at h
  simp only at h
  cases hr : (mainLoop (if env.sigtermBeforeLoop = true then
      TerminationHandler (ParseCommandLineArguments AppState.initial env.cmdLine).1
    else (ParseCommandLineArguments AppState.initial env.cmdLine).1) env.ticks).1 with
  | none => simp [hr] at h
  | some s1 =>
    simp only [hr, Option.some.injEq] at h
    subst h
    refine mainLoop_final env.ticks _ s1 ?_ hr
    by_cases hsig : env.sigtermBeforeLoop = true
    · rw [if_pos hsig]
      exact Or.inr (Or.inl rfl)
    · simp only [if_neg hsig]
      exact Or.inl hp

theorem main_first_tick (env : MainEnv) (t : TickEnv) (rest : List TickEnv)
    (hsig : env.sigtermBeforeLoop = false) (ht : env.ticks = t :: rest) :
    ∃ after, (main env).trace =
      Event.Log_Debug "Application starting\n" [] ::
        (ParseCommandLineArguments AppState.initial env.cmdLine).2 ++ startup ++
        (mainLoopBody (ParseCommandLineArguments AppState.initial env.cmdLine).1 t).2 ++
        after := by
  have h0 : (ParseCommandLineArguments AppState.initial env.cmdLine).1.exitCode =
      ExitCode_Success := (ParseCommandLineArguments_fields env.cmdLine AppState.initial).1
  have hloop : (mainLoop (ParseCommandLineArguments AppState.initial env.cmdLine).1
        (t :: rest)).2 =
      (mainLoopBody (ParseCommandLineArguments AppState.initial env.cmdLine).1 t).2 ++
        (mainLoop (tick (ParseCommandLineArguments AppState.initial env.cmdLine).1 t).1
          rest).2 := by
    rw [mainLoop, if_pos h0]
    rfl
  unfold main
  simp only [hsig, ht, Bool.false_eq_true, if_false, hloop]
  split
  · exact ⟨(mainLoop (tick (ParseCommandLineArguments AppState.initial env.cmdLine).1 t).1
      rest).2 ++ [Event.Log_Debug "Application exiting\n" []], by
        simp only [List.append_assoc, List.cons_append]⟩
  · exact ⟨(mainLoop (tick (ParseCommandLineArguments AppState.initial env.cmdLine).1 t).1
      rest).2, by simp only [List.append_assoc, List.cons_append]⟩

/-- C7, amended: for every command line, whether or not it defines the connection type or the
scope id, startup performs no validation. Parsing leaves `exitCode` at Success (and leaves the
connection type NotDefined when no ConnectionType option has the value `DPS` or `Direct`);
unless SIGTERM arrives first, the main loop is entered and its first iteration runs; and
whenever the loop ends `exitCode` is 1 or 16, never one of the validation codes 12 to 15. -/
theorem main_no_validation (env : MainEnv) :
    (ParseCommandLineArguments AppState.initial env.cmdLine).1.exitCode = ExitCode_Success ∧
    ((∀ r ∈ env.cmdLine, r ≠ GetoptResult.c "DPS" ∧ r ≠ GetoptResult.c "Direct") →
      (ParseCommandLineArguments AppState.initial env.cmdLine).1.connectionType =
        ConnectionType_NotDefined) ∧
    (env.sigtermBeforeLoop = false → ∀ (t : TickEnv) (rest : List TickEnv),
      env.ticks = t :: rest →
      ∃ after, (main env).trace =
        Event.Log_Debug "Application starting\n" [] ::
          (ParseCommandLineArguments AppState.initial env.cmdLine).2 ++ startup ++
          (mainLoopBody (ParseCommandLineArguments AppState.initial env.cmdLine).1 t).2 ++
          after) ∧
    (∀ sfin, (main env).final = some sfin →
      (sfin.exitCode = ExitCode_TermHandler_SigTerm ∨
        sfin.exitCode = ExitCode_InterfaceConnectionStatus_Failed) ∧
      sfin.exitCode ≠ ExitCode_Validate_ConnectionType ∧
      sfin.exitCode ≠ ExitCode_Validate_ScopeId ∧
      sfin.exitCode ≠ ExitCode_Validate_IotHubHostname ∧
      sfin.exitCode ≠ ExitCode_Validate_DeviceId) := by
  refine ⟨(ParseCommandLineArguments_fields env.cmdLine AppState.initial).1,
    fun h => ParseCommandLineArguments_connectionType env.cmdLine AppState.initial h,
    fun hsig t rest ht => main_first_tick env t rest hsig ht, ?_⟩
  intro sfin h
  have hf := main_final env sfin h
  refine ⟨hf, ?_, ?_, ?_, ?_⟩ <;> rcases hf with hf | hf <;> rw [hf] <;> decide

set_option maxRecDepth 20000 in
/-- C7 amended, at a concrete input: the command line with the ConnectionType `MQTT`, one
iteration, SIGTERM during it. -/
theorem main_no_validation_witness :
    (∀ r ∈ [GetoptResult.c "MQTT"], r ≠ GetoptResult.c "DPS" ∧ r ≠ GetoptResult.c "Direct") ∧
    (ParseCommandLineArguments AppState.initial [GetoptResult.c "MQTT"]).1.connectionType =
      ConnectionType_NotDefined ∧
    (main ⟨[GetoptResult.c "MQTT"], false, [TickEnv.lastTick]⟩).final ≠ none :=
  ⟨by decide,
   (main_no_validation ⟨[GetoptResult.c "MQTT"], false, [TickEnv.lastTick]⟩).2.1 (by decide),
   by decide⟩

/-! ## C8 -/

theorem wrapInt32_of_range (i : Int) (h0 : -2147483648 ≤ i) (h1 : i ≤ 2147483647) :
    wrapInt32 i = i := by
  unfold wrapInt32
  omega

theorem wrapInt32_overflow : wrapInt32 (INT_MAX + 1900) = -2147481749 := by decide

theorem connectivityStep_inv (s : AppState) (env : TickEnv) (h : AuthenticatedOnlyIfLive s) :
    AuthenticatedOnlyIfLive (connectivityStep s env).1 := by
  unfold connectivityStep
  split
  · split
    · rename_i hguard
      intro hauth
      by_cases hok : env.provisioning.result = AZURE_SPHERE_PROV_RESULT_OK
      · exact ((SetUpAzureIoTHubClientWithDps_fields s env.provisioning).2.1 hok).2
      · have hkeep := (SetUpAzureIoTHubClientWithDps_fields s env.provisioning).2.2 hok
        simp only at hauth
        rw [hkeep, hguard.2] at hauth
        exact absurd hauth (by decide)
    · exact h
  · split
    · exact h
    · exact h

theorem SendTelemetry_inv (s : AppState) (jsonMessage : String) (env : SendEnv)
    (h : AuthenticatedOnlyIfLive s) :
    AuthenticatedOnlyIfLive (SendTelemetry s jsonMessage env).1 := by
  by_cases hauth : s.iotHubClientAuthenticationState =
      IoTHubClientAuthenticationState_Authenticated
  · intro _
    rw [(SendTelemetry_fields s jsonMessage env).1]
    exact h hauth
  · rw [(SendTelemetry_not_authenticated_eq s jsonMessage env hauth)]
    exact h

theorem Step_inv {s t : AppState} {trace : List Event} (hstep : Step s trace t)
    (h : AuthenticatedOnlyIfLive s) : AuthenticatedOnlyIfLive t := by
  cases hstep with
  | connectivity env => exact connectivityStep_inv s env h
  | callback result reason live =>
    intro _
    rw [ConnectionStatusCallback_fst]
    exact live
  | send jsonMessage env => exact SendTelemetry_inv s jsonMessage env h
  | sigterm => exact h

theorem Reachable_inv {s : AppState} (h : Reachable s) : AuthenticatedOnlyIfLive s := by
  induction h with
  | start cmdLine =>
    intro hauth
    rw [(ParseCommandLineArguments_fields cmdLine AppState.initial).2.1] at hauth
    exact absurd hauth (by decide)
  | step _ hstep ih => exact Step_inv hstep ih

theorem connectivityStep_destroy (s : AppState) (env : TickEnv)
    (h : Event.IoTHubDeviceClient_LL_Destroy ∈ (connectivityStep s env).2.2) :
    s.iotHubClientAuthenticationState = IoTHubClientAuthenticationState_NotAuthenticated ∧
      (connectivityStep s env).1 = (SetUpAzureIoTHubClientWithDps s env.provisioning).1 := by
  unfold connectivityStep at h ⊢
  split at h
  · split at h
    · rename_i c hguard
      simp only [if_pos hguard, and_true]
      exact hguard.2
    · simp at h
  · split at h
    · simp at h
    · simp at h

theorem Step_destroy {s t : AppState} {trace : List Event} (hstep : Step s trace t)
    (h : Event.IoTHubDeviceClient_LL_Destroy ∈ trace) :
    ∃ env : TickEnv, trace = (connectivityStep s env).2.2 ∧ t = (connectivityStep s env).1 := by
  cases hstep with
  | connectivity env => exact ⟨env, rfl, rfl⟩
  | callback result reason live =>
    rw [ConnectionStatusCallback_snd] at h
    simp at h
  | send jsonMessage env =>
    have := SendTelemetry_events s jsonMessage env _ h
    simp [Event.isSendCall, Event.isCallbackCall] at this
  | sigterm => simp at h

theorem tick_reachable (s : AppState) (env : TickEnv) (h : Reachable s) :
    Reachable (tick s env).1 := by
  have h1 : Reachable (connectivityStep s env).1 := Reachable.step h (Step.connectivity s env)
  have h2 : Reachable (mainLoopBody s env).1 := by
    by_cases hc : (connectivityStep s env).2.1 = true
    · rw [mainLoopBody_hardFail s env hc]
      exact h1
    · by_cases hlen : (snprintf 100 env.snprintfError
            (telemetryText env.lt env.temp env.humi env.light)).2 < 0 ∨
         100 ≤ (snprintf 100 env.snprintfError
            (telemetryText env.lt env.temp env.humi env.light)).2
      · rw [mainLoopBody_overflow s env (by simpa using hc) hlen]
        exact h1
      · rw [mainLoopBody_fits s env (by simpa using hc) hlen]
        exact Reachable.step h1 (Step.send _ _ _)
  unfold tick
  by_cases hsig : env.sigterm = true
  · simp only [hsig, if_true]
    exact Reachable.step h2 (Step.sigterm _)
  · simp only [hsig]
    exact h2

theorem AppState.deauthenticated_reachable : Reachable AppState.deauthenticated :=
  Reachable.step (Reachable.step (Reachable.start []) (Step.connectivity _ TickEnv.nominal))
    (Step.callback _ IOTHUB_CLIENT_CONNECTION_UNAUTHENTICATED
      IOTHUB_CLIENT_CONNECTION_NO_NETWORK (by decide))

/-- C9, as stated, fails in its second half: from the reachable state left by a successful
provisioning and an unauthenticated status callback (NotAuthenticated, handle live), the next
provisioning attempt is a step that destroys the handle and, succeeding, leaves the state
Authenticated. -/
theorem destroying_step_can_end_Authenticated :
    Reachable AppState.deauthenticated ∧
    Step AppState.deauthenticated (connectivityStep AppState.deauthenticated TickEnv.nominal).2.2
      (connectivityStep AppState.deauthenticated TickEnv.nominal).1 ∧
    Event.IoTHubDeviceClient_LL_Destroy ∈
      (connectivityStep AppState.deauthenticated TickEnv.nominal).2.2 ∧
    (connectivityStep AppState.deauthenticated
        TickEnv.nominal).1.iotHubClientAuthenticationState =
      IoTHubClientAuthenticationState_Authenticated :=
  ⟨AppState.deauthenticated_reachable, Step.connectivity _ _, by decide, by decide⟩

/-- C9, amended: in every reachable state the authentication state is Authenticated only if
the handle is live; and every step that destroys the handle is a provisioning attempt of the
main loop that starts from NotAuthenticated, leaves the state NotAuthenticated when the
provisioning fails, and leaves it Authenticated, on a new live handle, when it succeeds. -/
theorem reachable_authenticated_only_if_live (s : AppState) (h : Reachable s) :
    (s.iotHubClientAuthenticationState = IoTHubClientAuthenticationState_Authenticated →
      s.iothubClientHandle = ClientHandle.live) ∧
    (∀ (trace : List Event) (t : AppState), Step s trace t →
      Event.IoTHubDeviceClient_LL_Destroy ∈ trace →
      s.iotHubClientAuthenticationState = IoTHubClientAuthenticationState_NotAuthenticated ∧
      (t.iotHubClientAuthenticationState = IoTHubClientAuthenticationState_Authenticated →
        t.iothubClientHandle = ClientHandle.live) ∧
      ∃ env : TickEnv, trace = (connectivityStep s env).2.2 ∧
        t = (connectivityStep s env).1 ∧
        (env.provisioning.result ≠ AZURE_SPHERE_PROV_RESULT_OK →
          t.iotHubClientAuthenticationState =
            IoTHubClientAuthenticationState_NotAuthenticated) ∧
        (env.provisioning.result = AZURE_SPHERE_PROV_RESULT_OK →
          t.iotHubClientAuthenticationState =
              IoTHubClientAuthenticationState_Authenticated ∧
            t.iothubClientHandle = ClientHandle.live)) := by
  refine ⟨Reachable_inv h, ?_⟩
  intro trace t hstep hdestroy
  obtain ⟨env, htrace, ht⟩ := Step_destroy hstep hdestroy
  have hd := connectivityStep_destroy s env (htrace ▸ hdestroy)
  have hf := SetUpAzureIoTHubClientWithDps_fields s env.provisioning
  refine ⟨hd.1, Step_inv hstep (Reachable_inv h), env, htrace, ht, ?_, ?_⟩
  · intro hfail
    rw [ht, hd.2, hf.2.2 hfail]
    exact hd.1
  · intro hok
    rw [ht, hd.2]
    exact hf.2.1 hok

/-- C9 amended, at a concrete input: the reachable state that is NotAuthenticated on a live
handle, and the provisioning attempt made from it, a step that destroys the handle, starts
from NotAuthenticated and ends Authenticated on a live handle. -/
theorem reachable_authenticated_only_if_live_witness :
    Reachable AppState.deauthenticated ∧
    Event.IoTHubDeviceClient_LL_Destroy ∈
      (connectivityStep AppState.deauthenticated TickEnv.nominal).2.2 ∧
    AppState.deauthenticated.iotHubClientAuthenticationState =
      IoTHubClientAuthenticationState_NotAuthenticated ∧
    ((connectivityStep AppState.deauthenticated
          TickEnv.nominal).1.iotHubClientAuthenticationState =
        IoTHubClientAuthenticationState_Authenticated →
      (connectivityStep AppState.deauthenticated TickEnv.nominal).1.iothubClientHandle =
        ClientHandle.live) ∧
    (connectivityStep AppState.deauthenticated
        TickEnv.nominal).1.iotHubClientAuthenticationState =
      IoTHubClientAuthenticationState_Authenticated :=
  ⟨AppState.deauthenticated_reachable, by decide,
   ((reachable_authenticated_only_if_live AppState.deauthenticated
      AppState.deauthenticated_reachable).2 _ _
      (Step.connectivity AppState.deauthenticated TickEnv.nominal) (by decide)).1,
   ((reachable_authenticated_only_if_live AppState.deauthenticated
      AppState.deauthenticated_reachable).2 _ _
      (Step.connectivity AppState.deauthenticated TickEnv.nominal) (by decide)).2.1,
   by decide⟩

/-! ## C10 -/

theorem usleep_not_mem_before_send (s : AppState) (env : TickEnv) :
    Event.usleep 5000000 ∉ (connectivityStep s env).2.2 ++ preSendEvents env := by
  intro h
  rcases List.mem_append.mp h with h | h
  · rcases connectivityStep_events s env _ h with h1 | h1 | h1
    · simp at h1
    · simp at h1
    · rcases SetUpAzureIoTHubClientWithDps_events s env.provisioning _ h1 with
        h2 | h2 | h2 | h2 | h2 <;> simp at h2
  · have := preSendEvents_isLocal env _ h
    simp [Event.isLocal] at this

theorem usleep_not_mem_SendTelemetry (s : AppState) (jsonMessage : String) (env : SendEnv) :
    Event.usleep 5000000 ∉ (SendTelemetry s jsonMessage env).2 := by
  intro h
  have := SendTelemetry_events s jsonMessage env _ h
  simp [Event.isSendCall, Event.isCallbackCall] at this

/-- C10 on the code: in an iteration whose connectivity query does not hard-fail, the calls are
the connectivity step, then the sensors, the display, the clock and `snprintf`, in this order;
when the formatted length is within 0 to 99 they are followed by `SendTelemetry` and one sleep
of 5 seconds, the last call of the iteration; when `snprintf` returns a negative value or 100
or more they are followed by the error log only, and the iteration sleeps zero times. -/
theorem mainLoopBody_sleep_count (s : AppState) (env : TickEnv)
    (hc : (connectivityStep s env).2.1 = false) :
    (¬ ((snprintf 100 env.snprintfError
            (telemetryText env.lt env.temp env.humi env.light)).2 < 0 ∨
         100 ≤ (snprintf 100 env.snprintfError
            (telemetryText env.lt env.temp env.humi env.light)).2) →
      (mainLoopBody s env).2 =
        (connectivityStep s env).2.2 ++
          (readSensors ++ renderDisplay env.temp env.humi env.light ++
            [Event.time, Event.localtime] ++
            [Event.snprintf 100 (snprintf 100 env.snprintfError
              (telemetryText env.lt env.temp env.humi env.light)).2]) ++
          (SendTelemetry (connectivityStep s env).1
            (snprintf 100 env.snprintfError
              (telemetryText env.lt env.temp env.humi env.light)).1 env.send).2 ++
          [Event.usleep 5000000] ∧
      (mainLoopBody s env).2.count (Event.usleep 5000000) = 1) ∧
    (((snprintf 100 env.snprintfError
            (telemetryText env.lt env.temp env.humi env.light)).2 < 0 ∨
         100 ≤ (snprintf 100 env.snprintfError
            (telemetryText env.lt env.temp env.humi env.light)).2) →
      (mainLoopBody s env).2 =
        (connectivityStep s env).2.2 ++
          (readSensors ++ renderDisplay env.temp env.humi env.light ++
            [Event.time, Event.localtime] ++
            [Event.snprintf 100 (snprintf 100 env.snprintfError
              (telemetryText env.lt env.temp env.humi env.light)).2]) ++
          [Event.Log_Debug "ERROR: Cannot write telemetry to buffer.\n" []] ∧
      (mainLoopBody s env).2.count (Event.usleep 5000000) = 0) := by
  have h1 := usleep_not_mem_before_send s env
  constructor
  · intro hfit
    rw [mainLoopBody_fits s env hc hfit]
    refine ⟨rfl, ?_⟩
    simp only [List.count_append]
    rw [← List.count_append, List.count_eq_zero.mpr h1,
      List.count_eq_zero.mpr (usleep_not_mem_SendTelemetry _ _ _)]
    rfl
  · intro hover
    rw [mainLoopBody_overflow s env hc hover]
    refine ⟨rfl, ?_⟩
    simp only [List.count_append]
    rw [← List.count_append, List.count_eq_zero.mpr h1]
    rfl

set_option maxRecDepth 20000 in
/-- C10 on the code, at the failing input: with three readings of `2^127` the connectivity
query succeeds, the formatted length is 185, and the iteration makes no sleep call at all,
while the nominal iteration makes exactly one. -/
theorem mainLoopBody_sleep_count_witness :
    (connectivityStep AppState.initial TickEnv.oversized).2.1 = false ∧
    (snprintf 100 TickEnv.oversized.snprintfError
        (telemetryText TickEnv.oversized.lt TickEnv.oversized.temp TickEnv.oversized.humi
          TickEnv.oversized.light)).2 = 185 ∧
    (mainLoopBody AppState.initial TickEnv.oversized).2.count (Event.usleep 5000000) = 0 ∧
    (mainLoopBody AppState.initial TickEnv.nominal).2.count (Event.usleep 5000000) = 1 :=
  ⟨by decide, by decide,
   ((mainLoopBody_sleep_count AppState.initial TickEnv.oversized (by decide)).2
      (Or.inr (by decide))).2,
   ((mainLoopBody_sleep_count AppState.initial TickEnv.nominal (by decide)).1
      (by decide)).2⟩

/-! ## C11 -/

theorem fmt_d_length (i : Int) (e : Nat) (he : 0 < e) (h0 : 0 ≤ i) (h1 : i < 10 ^ e) :
    (fmt_d i).length ≤ e := by
  obtain ⟨n, rfl⟩ := Int.eq_ofNat_of_zero_le h0
  have hn : n < 10 ^ e := by exact_mod_cast h1
  exact Nat.repr_length n e he hn

theorem magnitude_den_pos (mant : Nat) (exp : Int) : 0 < (magnitude mant exp).2 := by
  unfold magnitude
  split
  · exact Nat.one_pos
  · exact pow_pos (by decide) _

theorem roundTenths_le (num den bound : Nat) (hden : 0 < den)
    (h : 10 * num ≤ bound * den) : roundTenths num den ≤ bound := by
  have hq : 10 * num / den ≤ bound :=
    Nat.div_le_of_le_mul (Nat.mul_comm bound den ▸ h)
  have key : ∀ q r : Nat, den * q + r = 10 * num → 0 < r → q + 1 ≤ bound := by
    intro q r hdm hr
    by_contra hcon
    have hle : bound ≤ q := by omega
    have hmul : bound * den ≤ q * den := Nat.mul_le_mul_right den hle
    rw [Nat.mul_comm q den] at hmul
    omega
  have hq1 : 0 < 10 * num % den → 10 * num / den + 1 ≤ bound :=
    key _ _ (Nat.div_add_mod _ _)
  unfold roundTenths
  simp only
  split
  · exact hq
  · split
    · exact hq1 (by omega)
    · split
      · exact hq
      · exact hq1 (by omega)

theorem fmt_1f_finite_length (neg : Bool) (mant : Nat) (exp : Int) (bound k : Nat)
    (hk : 0 < k) (hb : bound / 10 < 10 ^ k)
    (h : 10 * (magnitude mant exp).1 ≤ bound * (magnitude mant exp).2) :
    (fmt_1f (CFloat.finite neg mant exp)).length ≤ (if neg then 1 else 0) + k + 2 := by
  have ht := roundTenths_le _ _ bound (magnitude_den_pos mant exp) h
  have h1 : (toString (roundTenths (magnitude mant exp).1 (magnitude mant exp).2 / 10)).length
      ≤ k :=
    Nat.repr_length _ k hk (lt_of_le_of_lt (Nat.div_le_div_right ht) hb)
  have h2 : (toString (roundTenths (magnitude mant exp).1 (magnitude mant exp).2 % 10)).length
      ≤ 1 :=
    Nat.repr_length _ 1 Nat.one_pos (by simpa using Nat.mod_lt _ (by decide : 0 < 10))
  have hs : (if neg = true then "-" else "").length = if neg = true then 1 else 0 := by
    cases neg <;> rfl
  unfold fmt_1f
  simp only [String.length_append, hs]
  have hdot : ".".length = 1 := rfl
  omega

theorem fmt_1f_length_of_between (x : CFloat) (lo hi : Int) (low high kn kp : Nat)
    (hlo : -(low : Int) ≤ lo) (hhi : hi ≤ (high : Int)) (hkn : 0 < kn) (hkp : 0 < kp)
    (hlow : low / 10 < 10 ^ kn) (hhigh : high / 10 < 10 ^ kp)
    (hx : x.isBetweenTenths lo hi) : (fmt_1f x).length ≤ max (kn + 3) (kp + 2) := by
  cases x with
  | finite neg mant exp =>
    have hden : (0 : Int) ≤ ((magnitude mant exp).2 : Int) := Int.ofNat_nonneg _
    obtain ⟨h1, h2⟩ := hx
    cases neg with
    | true =>
      have hb : 10 * (magnitude mant exp).1 ≤ low * (magnitude mant exp).2 := by
        have hm := mul_le_mul_of_nonneg_right hlo hden
        simp only [signedTenths, if_true] at h1
        have : ((10 * (magnitude mant exp).1 : Nat) : Int) ≤
            ((low * (magnitude mant exp).2 : Nat) : Int) := by
          push_cast
          push_cast at h1
          linarith
        exact_mod_cast this
      have := fmt_1f_finite_length true mant exp low kn hkn hlow hb
      simp only [if_true] at this
      omega
    | false =>
      have hb : 10 * (magnitude mant exp).1 ≤ high * (magnitude mant exp).2 := by
        have hm := mul_le_mul_of_nonneg_right hhi hden
        simp only [signedTenths, Bool.false_eq_true, if_false] at h2
        have : ((10 * (magnitude mant exp).1 : Nat) : Int) ≤
            ((high * (magnitude mant exp).2 : Nat) : Int) := by
          push_cast
          push_cast at h2
          linarith
        exact_mod_cast this
      have := fmt_1f_finite_length false mant exp high kp hkp hhigh hb
      simp only [Bool.false_eq_true, if_false] at this
      omega
  | inf neg => exact absurd hx (fun h => h)
  | nan neg => exact absurd hx (fun h => h)

theorem telemetryText_length (lt : Tm) (temp humi light : CFloat) (hlt : lt.isCalendarTime)
    (htemp : temp.isBetweenTenths (-400) 1250) (hhumi : humi.isBetweenTenths 0 1000)
    (hlight : light.isBetweenTenths 0 999999) :
    (telemetryText lt temp humi light).length ≤ 81 := by
  obtain ⟨⟨hy0, hy1⟩, ⟨hm0, hm1⟩, ⟨hd0, hd1⟩, ⟨hh0, hh1⟩, ⟨hn0, hn1⟩, ⟨hs0, hs1⟩⟩ := hlt
  have l1 := fmt_d_length (lt.tm_year + 1900) 4 (by decide) (by omega) (by norm_num; omega)
  have l2 := fmt_d_length (lt.tm_mon + 1) 2 (by decide) (by omega) (by norm_num; omega)
  have l3 := fmt_d_length lt.tm_mday 2 (by decide) (by omega) (by norm_num; omega)
  have l4 := fmt_d_length (lt.tm_hour + 8) 2 (by decide) (by omega) (by norm_num; omega)
  have l5 := fmt_d_length lt.tm_min 2 (by decide) (by omega) (by norm_num; omega)
  have l6 := fmt_d_length lt.tm_sec 2 (by decide) (by omega) (by norm_num; omega)
  have l7 := fmt_1f_length_of_between temp (-400) 1250 400 1250 2 3 (by norm_num)
    (by norm_num) (by decide) (by decide) (by norm_num) (by norm_num) htemp
  have l8 := fmt_1f_length_of_between humi 0 1000 0 1000 1 3 (by norm_num)
    (by norm_num) (by decide) (by decide) (by norm_num) (by norm_num) hhumi
  have l9 := fmt_1f_length_of_between light 0 999999 0 999999 1 5 (by norm_num)
    (by norm_num) (by decide) (by decide) (by norm_num) (by norm_num) hlight
  have c1 : "\x7b\"Time\":\"".length = 9 := by decide
  have c2 : " ".length = 1 := by decide
  have c3 : ":".length = 1 := by decide
  have c4 : "\",\"Temperature\":".length = 16 := by decide
  have c5 : ",\"Humidity\":".length = 12 := by decide
  have c6 : ",\"Light\":".length = 9 := by decide
  have c7 : "\x7d".length = 1 := by decide
  have w1 : wrapInt32 (lt.tm_year + 1900) = lt.tm_year + 1900 :=
    wrapInt32_of_range _ (by omega) (by omega)
  have w2 : wrapInt32 (lt.tm_mon + 1) = lt.tm_mon + 1 :=
    wrapInt32_of_range _ (by omega) (by omega)
  have w4 : wrapInt32 (lt.tm_hour + 8) = lt.tm_hour + 8 :=
    wrapInt32_of_range _ (by omega) (by omega)
  unfold telemetryText
  rw [w1, w2, w4]
  simp only [String.length_append, c1, c2, c3, c4, c5, c6, c7]
  simp only [Nat.max_def] at l7 l8 l9
  norm_num at l7 l8 l9
  omega

theorem snprintf_fits (text : String) (h : text.length < 100) :
    snprintf 100 false text = (text, (text.length : Int)) := by
  unfold snprintf
  have htake : text.toList.take (100 - 1) = text.toList :=
    List.take_of_length_le (by simp only [String.length] at h; simp only [String.toList]; omega)
  simp only [Bool.false_eq_true, if_false, htake]
  rfl

/-- C11: for every calendar time with a four-digit year (`tm_year + 1900` in 1000..9999,
month `tm_mon + 1` in 1..12, day in 1..31, `tm_hour` in 0..23, minute in 0..59, second in
0..60) and all readings whose values lie in [-40.0, 125.0] (temperature), [0.0, 100.0]
(humidity) and [0.0, 99999.9] (light), the text formatted by the main loop has fewer than 100
characters (at most 81), so `snprintf` never returns 100 or more; and when `snprintf` reports
no error the buffer holds the whole text and, in an iteration whose connectivity query does
not hard-fail, `SendTelemetry` is called with that whole text. -/
theorem telemetryText_fits_buffer (env : TickEnv) (hlt : env.lt.isCalendarTime)
    (htemp : env.temp.isBetweenTenths (-400) 1250)
    (hhumi : env.humi.isBetweenTenths 0 1000)
    (hlight : env.light.isBetweenTenths 0 999999) :
    (telemetryText env.lt env.temp env.humi env.light).length < 100 ∧
    (snprintf 100 env.snprintfError
      (telemetryText env.lt env.temp env.humi env.light)).2 < 100 ∧
    (env.snprintfError = false →
      (snprintf 100 env.snprintfError
        (telemetryText env.lt env.temp env.humi env.light)).1 =
          telemetryText env.lt env.temp env.humi env.light ∧
      ∀ s : AppState, (connectivityStep s env).2.1 = false →
        mainLoopBody s env =
          ((SendTelemetry (connectivityStep s env).1
              (telemetryText env.lt env.temp env.humi env.light) env.send).1,
            (connectivityStep s env).2.2 ++ preSendEvents env ++
              (SendTelemetry (connectivityStep s env).1
                (telemetryText env.lt env.temp env.humi env.light) env.send).2 ++
              [Event.usleep 5000000])) := by
  have hlen := telemetryText_length env.lt env.temp env.humi env.light hlt htemp hhumi hlight
  have hlt100 : (telemetryText env.lt env.temp env.humi env.light).length < 100 := by omega
  refine ⟨hlt100, ?_, ?_⟩
  · cases herr : env.snprintfError with
    | true => simp [snprintf]
    | false =>
      rw [snprintf_fits _ hlt100]
      simp only
      omega
  · intro herr
    have hsn := snprintf_fits _ hlt100
    rw [← herr] at hsn
    refine ⟨by rw [hsn], ?_⟩
    intro s hc
    have hfit : ¬ ((snprintf 100 env.snprintfError
            (telemetryText env.lt env.temp env.humi env.light)).2 < 0 ∨
         100 ≤ (snprintf 100 env.snprintfError
            (telemetryText env.lt env.temp env.humi env.light)).2) := by
      rw [hsn]
      simp only
      omega
    rw [mainLoopBody_fits s env hc hfit, hsn]

set_option maxRecDepth 20000 in
/-- C11, at a concrete input: the time 9999-12-31 23:59:60 with the readings -40.0, 100.0 and
99999.9, for which the text has 81 characters. -/
theorem telemetryText_fits_buffer_witness :
    TickEnv.widest.lt.isCalendarTime ∧
    TickEnv.widest.temp.isBetweenTenths (-400) 1250 ∧
    TickEnv.widest.humi.isBetweenTenths 0 1000 ∧
    TickEnv.widest.light.isBetweenTenths 0 999999 ∧
    (telemetryText TickEnv.widest.lt TickEnv.widest.temp TickEnv.widest.humi
      TickEnv.widest.light).length = 81 ∧
    (telemetryText TickEnv.widest.lt TickEnv.widest.temp TickEnv.widest.humi
      TickEnv.widest.light).length < 100 :=
  ⟨by decide, by decide, by decide, by decide, by decide,
   (telemetryText_fits_buffer TickEnv.widest (by decide) (by decide) (by decide)
      (by decide)).1⟩

end TempHumiditySHT31
